import Mathlib

/-!
Shallow embedding of the order/coupon workflow of the digital-commerce
backend (`src/unnamed/part_003` for order handlers, `src/unnamed/part_010`
for coupon handlers, schema in `src/server/src/handlers/coupons.ts` tail /
`src/unnamed/part_000`).

Monetary values (`numeric` columns, parsed with `parseFloat`) are modelled
as rationals; timestamps as integers (epoch milliseconds); the relational
store as lists of rows.  A transaction that rolls back is modelled by
returning the unchanged store.
-/

/-- Discount type enum (`discount_type` column: `percentage | fixed`). -/
inductive DiscountType where
  | percentage
  | fixed
deriving DecidableEq, Repr

/-- Order status enum (`order_status` column). -/
inductive OrderStatus where
  | pending
  | paid
  | completed
  | cancelled
  | refunded
deriving DecidableEq, Repr

/-- A row of `couponsTable`.  `discount_value` and `minimum_order` are
`numeric` strings in the store, `parseFloat`-ed by the handlers; a SQL
`NULL` is `none`. -/
structure Coupon where
  id : Nat
  code : String
  discount_type : DiscountType
  discount_value : ℚ
  minimum_order : Option ℚ
  usage_limit : Option Int
  used_count : Int
  expires_at : Option Int
  is_active : Bool
deriving DecidableEq, Repr

/-- A row of `productsTable` (the fields the order workflow reads). -/
structure Product where
  id : Nat
  name : String
  price : ℚ
  stock_quantity : Int
  is_active : Bool
deriving DecidableEq, Repr

/-- A row of `ordersTable` (the fields the workflow reads or writes). -/
structure Order where
  id : Nat
  user_id : Nat
  order_number : String
  status : OrderStatus
  subtotal : ℚ
  tax_amount : ℚ
  discount_amount : ℚ
  total_amount : ℚ
  coupon_id : Option Nat
  payment_method : Option String
  payment_reference : Option String
deriving DecidableEq, Repr

/-- A row of `orderItemsTable`. -/
structure OrderItem where
  id : Nat
  order_id : Nat
  product_id : Nat
  quantity : Int
  unit_price : ℚ
  total_price : ℚ
  license_key : Option String
  download_expires_at : Option Int
deriving DecidableEq, Repr

/-- The relational store: the tables the workflow touches, plus the serial
counters that produce fresh primary keys. `users` holds only the ids (the
only field `createOrder` reads). -/
structure DB where
  users : List Nat
  products : List Product
  coupons : List Coupon
  orders : List Order
  orderItems : List OrderItem
  nextOrderId : Nat
  nextItemId : Nat
deriving DecidableEq, Repr

/-- One element of `createOrderInputSchema.items`
(`src/unnamed/part_000`): `product_id`, positive integer `quantity`, and a
client-supplied `price` (which `createOrder` never reads). -/
structure CreateOrderItemInput where
  product_id : Nat
  quantity : Int
  price : ℚ
deriving DecidableEq, Repr

/-- `createOrderInputSchema` (`src/unnamed/part_000`). -/
structure CreateOrderInput where
  user_id : Nat
  items : List CreateOrderItemInput
  coupon_code : Option String
deriving DecidableEq, Repr

/-- Errors thrown by `createOrder` (`src/unnamed/part_003` lines 20-45).
The source throws `Error` values with these messages; the spec taxonomy
classifies them as `NotFound`, `InvalidInput` and `Conflict`.
`insufficientStock name` carries the text
`Insufficient stock for product <name>`. -/
inductive OrderError where
  | userNotFound
  | productsNotFoundOrInactive
  | insufficientStock (productName : String)
deriving DecidableEq, Repr

/-- `products.find(p => p.id === pid)`. -/
def findProduct (products : List Product) (pid : Nat) : Option Product :=
  products.find? (fun p => p.id == pid)

/-- The batch product lookup of `createOrder` (part_003 lines 24-32):
`WHERE is_active = true AND id IN productIds`. -/
def resolvedProducts (db : DB) (input : CreateOrderInput) : List Product :=
  db.products.filter (fun p =>
    p.is_active && (input.items.map (·.product_id)).contains p.id)

/-- The stock-availability loop of `createOrder` (part_003 lines 38-46):
returns the product of the first item whose requested quantity exceeds the
product's `stock_quantity` (items whose product is not in the resolved
list are skipped, mirroring the `if (!product) continue`). -/
def firstStockViolation (products : List Product) : List CreateOrderItemInput → Option Product
  | [] => none
  | item :: rest =>
    match findProduct products item.product_id with
    | none => firstStockViolation products rest
    | some p =>
      if p.stock_quantity < item.quantity then some p
      else firstStockViolation products rest

/-- The subtotal reduction of `createOrder` (part_003 lines 48-53):
`sum + parseFloat(product.price) * item.quantity`, skipping items whose
product is missing from the resolved list. -/
def orderSubtotal (products : List Product) (items : List CreateOrderItemInput) : ℚ :=
  items.foldl
    (fun s item =>
      match findProduct products item.product_id with
      | none => s
      | some p => s + p.price * (item.quantity : ℚ))
    0

/-- The coupon eligibility checks of `createOrder` (part_003 lines 71-88),
with JavaScript truthiness rendered exactly: `!couponData.expires_at ||
couponData.expires_at > now`; `!couponData.usage_limit || used_count <
usage_limit` (so a `usage_limit` of `0` is falsy and counts as no limit);
`!couponData.minimum_order || subtotal >= parseFloat(minimum_order)` (the
stored numeric string is falsy only when SQL `NULL`). -/
def createOrderCouponEligible (c : Coupon) (now : Int) (subtotal : ℚ) : Bool :=
  (match c.expires_at with
    | none => true
    | some e => decide (now < e)) &&
  (match c.usage_limit with
    | none => true
    | some l => l == 0 || decide (c.used_count < l)) &&
  (match c.minimum_order with
    | none => true
    | some m => decide (m ≤ subtotal))

/-- The discount computation of `createOrder` (part_003 lines 81-85):
percentage coupons give `subtotal * value / 100`, fixed coupons give
`min(value, subtotal)`. -/
def createOrderDiscount (c : Coupon) (subtotal : ℚ) : ℚ :=
  match c.discount_type with
  | .percentage => subtotal * c.discount_value / 100
  | .fixed => min c.discount_value subtotal

/-- The coupon-selection block of `createOrder` (part_003 lines 55-90):
the lookup requires the code to match and `is_active = true`; an absent or
ineligible coupon is silently ignored (`none`). -/
def createOrderCoupon (coupons : List Coupon) (couponCode : Option String)
    (now : Int) (subtotal : ℚ) : Option Coupon :=
  match couponCode with
  | none => none
  | some code =>
    match coupons.find? (fun c => c.code == code && c.is_active) with
    | none => none
    | some c => if createOrderCouponEligible c now subtotal then some c else none

/-- The order-item rows built by `createOrder` (part_003 lines 121-139):
one row per input item, serial ids, `unit_price` taken from the catalog
row (`products.find(...)!`; the `none` branch is unreachable after the
batch-lookup length check, where the source would crash and roll back),
`total_price = unit_price * quantity`, no license key yet. -/
def createOrderItems (orderId : Nat) (products : List Product) (nextId : Nat) :
    List CreateOrderItemInput → List OrderItem
  | [] => []
  | item :: rest =>
    (match findProduct products item.product_id with
      | some p =>
        { id := nextId
          order_id := orderId
          product_id := item.product_id
          quantity := item.quantity
          unit_price := p.price
          total_price := p.price * (item.quantity : ℚ)
          license_key := none
          download_expires_at := none }
      | none =>
        { id := nextId
          order_id := orderId
          product_id := item.product_id
          quantity := item.quantity
          unit_price := 0
          total_price := 0
          license_key := none
          download_expires_at := none }) ::
      createOrderItems orderId products (nextId + 1) rest

/-- `UPDATE products SET stock_quantity = s WHERE id = pid`. -/
def setStock (ps : List Product) (pid : Nat) (s : Int) : List Product :=
  ps.map (fun p => if p.id == pid then { p with stock_quantity := s } else p)

/-- The last six characters of a string: `.toString().slice(-6)` on the
millisecond clock (part_003 line 99). -/
def lastSix (s : String) : String :=
  String.mk (s.data.drop (s.data.length - 6))

/-- `ORD-${new Date().getFullYear()}-${Date.now().toString().slice(-6)}`
(part_003 line 99). -/
def mkOrderNumber (year : Nat) (now : Int) : String :=
  "ORD-" ++ toString year ++ "-" ++ lastSix (toString now)

/-- `createOrder` (part_003 lines 11-179).  `now` is the millisecond
clock reading and `year` the current calendar year.  The first component
is the result (the thrown error, or the persisted `Order` row, which the
handler also returns after `parseFloat`-ing the numeric columns — the
identity in this model); the second is the store after the call, with a
rolled-back transaction leaving it unchanged. -/
def createOrder (db : DB) (now : Int) (year : Nat) (input : CreateOrderInput) :
    Except OrderError Order × DB :=
  if !db.users.contains input.user_id then
    (.error .userNotFound, db)
  else
    let products := resolvedProducts db input
    if products.length != (input.items.map (·.product_id)).length then
      (.error .productsNotFoundOrInactive, db)
    else
      match firstStockViolation products input.items with
      | some p => (.error (.insufficientStock p.name), db)
      | none =>
        let subtotal := orderSubtotal products input.items
        let applied := createOrderCoupon db.coupons input.coupon_code now subtotal
        let couponId : Option Nat := applied.map (·.id)
        let discountAmount : ℚ :=
          match applied with
          | none => 0
          | some c => createOrderDiscount c subtotal
        -- part_003 lines 92-96
        let taxRate : ℚ := 1 / 10
        let taxableAmount := subtotal - discountAmount
        let taxAmount := taxableAmount * taxRate
        let totalAmount := subtotal + taxAmount - discountAmount
        let newOrder : Order :=
          { id := db.nextOrderId
            user_id := input.user_id
            order_number := mkOrderNumber year now
            status := .pending
            subtotal := subtotal
            tax_amount := taxAmount
            discount_amount := discountAmount
            total_amount := totalAmount
            coupon_id := couponId
            payment_method := none
            payment_reference := none }
        let newItems := createOrderItems newOrder.id products db.nextItemId input.items
        -- part_003 lines 141-152: used_count of the applied coupon +1
        let coupons' :=
          match applied with
          | none => db.coupons
          | some c =>
            db.coupons.map (fun x =>
              if x.id == c.id then { x with used_count := x.used_count + 1 } else x)
        -- part_003 lines 154-161: stock set to the PRE-READ quantity minus the
        -- ordered quantity, one UPDATE per input item.
        let products' :=
          input.items.foldl
            (fun ps item =>
              match findProduct products item.product_id with
              | some p => setStock ps item.product_id (p.stock_quantity - item.quantity)
              | none => ps)
            db.products
        (.ok newOrder,
          { db with
              products := products'
              coupons := coupons'
              orders := db.orders ++ [newOrder]
              orderItems := db.orderItems ++ newItems
              nextOrderId := db.nextOrderId + 1
              nextItemId := db.nextItemId + input.items.length })

/-- The expiry guard of `validateCoupon` (part_010 line 157):
`coupon.expires_at && new Date() > coupon.expires_at`. -/
def isExpiredAt (c : Coupon) (now : Int) : Bool :=
  match c.expires_at with
  | none => false
  | some e => decide (e < now)

/-- The usage guard of `validateCoupon` (part_010 line 162):
`coupon.usage_limit !== null && coupon.used_count >= coupon.usage_limit`. -/
def usageExhausted (c : Coupon) : Bool :=
  match c.usage_limit with
  | none => false
  | some l => decide (l ≤ c.used_count)

/-- The minimum-order guard of `validateCoupon` (part_010 line 167):
`coupon.minimum_order !== null && orderTotal < coupon.minimum_order`. -/
def belowMinimum (c : Coupon) (t : ℚ) : Bool :=
  match c.minimum_order with
  | none => false
  | some m => decide (t < m)

/-- Result shape of `validateCoupon` (part_010 line 131). -/
structure ValidateCouponResult where
  isValid : Bool
  coupon : Option Coupon
  discount : Option ℚ
  error : Option String
deriving DecidableEq, Repr

/-- `validateCoupon(code, orderTotal)` (part_010 lines 131-194).  The
expiry check is `new Date() > coupon.expires_at`, the usage check
`used_count >= usage_limit` (done whenever `usage_limit !== null`, so a
limit of `0` counts as exhausted here, unlike in `createOrder`), and the
minimum-order check `orderTotal < coupon.minimum_order` — inclusive at
equality.  The source formats the minimum into the error message with
`toFixed(2)`; this model keeps a fixed message text. -/
def validateCoupon (db : DB) (code : String) (orderTotal : ℚ) (now : Int) :
    ValidateCouponResult :=
  match db.coupons.find? (fun c => c.code == code) with
  | none => { isValid := false, coupon := none, discount := none, error := some "Coupon not found" }
  | some c =>
    if !c.is_active then
      { isValid := false, coupon := none, discount := none, error := some "Coupon is not active" }
    else if isExpiredAt c now then
      { isValid := false, coupon := none, discount := none, error := some "Coupon has expired" }
    else if usageExhausted c then
      { isValid := false, coupon := none, discount := none,
        error := some "Coupon usage limit reached" }
    else if belowMinimum c orderTotal then
      { isValid := false, coupon := none, discount := none,
        error := some "Minimum order amount required" }
    else
      let d0 : ℚ :=
        match c.discount_type with
        | .percentage => orderTotal * c.discount_value / 100
        | .fixed => c.discount_value
      let discount := min d0 orderTotal
      { isValid := true, coupon := some c, discount := some discount, error := none }

/-- Result shape of `applyCoupon` (part_010 line 200). -/
structure ApplyCouponResult where
  success : Bool
  discount : Option ℚ
  error : Option String
deriving DecidableEq, Repr

/-- `applyCoupon(code, orderId)` (part_010 lines 200-250).  Reads the
order, runs `validateCoupon` against `parseFloat(order.subtotal)`, and on
success sets the coupon's `used_count` to the snapshot value plus one and
rewrites the order with `coupon_id`, `discount_amount = discount` and
`total_amount = subtotal - discount` (the stale `tax_amount` is left in
place). -/
def applyCoupon (db : DB) (code : String) (orderId : Nat) (now : Int) :
    ApplyCouponResult × DB :=
  match db.orders.find? (fun o => o.id == orderId) with
  | none => ({ success := false, discount := none, error := some "Order not found" }, db)
  | some order =>
    let orderTotal := order.subtotal
    let v := validateCoupon db code orderTotal now
    match v.isValid, v.coupon, v.discount with
    | true, some c, some d =>
      let coupons' := db.coupons.map (fun x =>
        if x.id == c.id then { x with used_count := c.used_count + 1 } else x)
      let orders' := db.orders.map (fun o =>
        if o.id == orderId then
          { o with
              coupon_id := some c.id
              discount_amount := d
              total_amount := orderTotal - d }
        else o)
      ({ success := true, discount := some d, error := none },
        { db with coupons := coupons', orders := orders' })
    | _, _, _ => ({ success := false, discount := none, error := v.error }, db)

/-- Result shape of `refundOrder` (part_003 line 541). -/
structure RefundResult where
  success : Bool
  error : Option String
deriving DecidableEq, Repr

/-- Thirty days in milliseconds (`setDate(getDate() + 30)`, modelled on a
linear clock). -/
def thirtyDaysMs : Int := 30 * 86400000

/-- The select of `generateLicenseKeys` (part_003 lines 431-438):
order items of the order with a `NULL` `license_key`, inner-joined with
`productsTable` (so items whose product row is gone are not picked). -/
def needingKeys (db : DB) (orderId : Nat) : List OrderItem :=
  db.orderItems.filter (fun it =>
    it.order_id == orderId && it.license_key.isNone &&
      db.products.any (fun p => p.id == it.product_id))

/-- One `UPDATE order_items SET license_key, download_expires_at WHERE
id = itemId` (part_003 lines 450-456). -/
def assignKey (itemId : Nat) (key : String) (expiry : Int) (x : OrderItem) : OrderItem :=
  if x.id == itemId then
    { x with license_key := some key, download_expires_at := some expiry }
  else x

/-- `generateLicenseKeys(orderId)` (part_003 lines 428-465).  `keyGen i`
stands for the `i`-th `crypto.randomUUID().toUpperCase()` and the assigned
key is `LIC-` prefixed to it; `download_expires_at` becomes `now` plus
thirty days.  Returns `true` (the `false` branch of the source is reached
only on a storage exception). -/
def generateLicenseKeys (db : DB) (orderId : Nat) (keyGen : Nat → String) (now : Int) :
    Bool × DB :=
  let items := needingKeys db orderId
  if items.length == 0 then
    (true, db)
  else
    let db' :=
      ((List.range items.length).zip items).foldl
        (fun acc pair =>
          { acc with
              orderItems := acc.orderItems.map
                (assignKey pair.2.id ("LIC-" ++ keyGen pair.1) (now + thirtyDaysMs)) })
        db
    (true, db')

/-- `refundOrder(orderId, reason?)` (part_003 lines 541-607).  Requires
the order to exist and be `paid` or `completed`; then, in one
transaction: status becomes `refunded`, every item of the order has
`license_key` and `download_expires_at` nulled, and for each item of the
order the product's stock is set to its current value plus the item's
quantity (one read-then-update per item). -/
def refundOrder (db : DB) (orderId : Nat) : RefundResult × DB :=
  match db.orders.find? (fun o => o.id == orderId) with
  | none => ({ success := false, error := some "Order not found" }, db)
  | some order =>
    if order.status != .paid && order.status != .completed then
      ({ success := false, error := some "Order cannot be refunded" }, db)
    else
      let orders' := db.orders.map (fun o =>
        if o.id == orderId then { o with status := .refunded } else o)
      let orderItems' := db.orderItems.map (fun it =>
        if it.order_id == orderId then
          { it with license_key := none, download_expires_at := none }
        else it)
      let theItems := orderItems'.filter (fun it => it.order_id == orderId)
      let products' :=
        theItems.foldl
          (fun ps it =>
            match ps.find? (fun p => p.id == it.product_id) with
            | some p => setStock ps it.product_id (p.stock_quantity + it.quantity)
            | none => ps)
          db.products
      ({ success := true, error := none },
        { db with orders := orders', orderItems := orderItems', products := products' })

/-- `updateOrderStatus(id, status)` (part_003 lines 329-363): sets the
status of the order when it exists; entering `paid` triggers
`generateLicenseKeys` inline. -/
def updateOrderStatus (db : DB) (orderId : Nat) (status : OrderStatus)
    (keyGen : Nat → String) (now : Int) : Option Order × DB :=
  match db.orders.find? (fun o => o.id == orderId) with
  | none => (none, db)
  | some order =>
    let updated := { order with status := status }
    let orders' := db.orders.map (fun o => if o.id == orderId then updated else o)
    let db1 := { db with orders := orders' }
    let db2 := if status == .paid then (generateLicenseKeys db1 orderId keyGen now).2 else db1
    (some updated, db2)

/-- Projection of an input item to the two fields `createOrder` actually
reads: `(product_id, quantity)`. -/
def stripItem (it : CreateOrderItemInput) : Nat × Int :=
  (it.product_id, it.quantity)

/-- Projection of a stored order item to `(product_id, quantity)`, the
fields the refund stock-restore loop reads. -/
def stripOrderItem (it : OrderItem) : Nat × Int :=
  (it.product_id, it.quantity)

/-- Sum of the second components of the pairs whose first component is
`pid`. -/
def pairSum (pairs : List (Nat × Int)) (pid : Nat) : Int :=
  ((pairs.filter (fun pr => pr.1 == pid)).map (·.2)).sum

/-- Total quantity of product `pid` across the order items of order
`oid`. -/
def restoredQty (db : DB) (oid : Nat) (pid : Nat) : Int :=
  ((db.orderItems.filter (fun it => it.order_id == oid && it.product_id == pid)).map
    (·.quantity)).sum

/-- Price of product `pid` in the catalog (`0` when the product row is
absent; used only to state theorems about runs where every product
resolves). -/
def catalogPrice (db : DB) (pid : Nat) : ℚ :=
  ((findProduct db.products pid).map (·.price)).getD 0

/-- Modelled from the spec: `subtotal = Σ(product.price * quantity)` over
the request items, prices taken from the catalog.  Stated independently of
`createOrder`, to be compared with the subtotal the handler persists. -/
def specSubtotal (db : DB) (input : CreateOrderInput) : ℚ :=
  (input.items.map (fun it => catalogPrice db it.product_id * (it.quantity : ℚ))).sum

/-! ### Basic lemmas about the lookup helpers -/

theorem findProduct_eq_some {ps : List Product} {pid : Nat} {p : Product}
    (h : findProduct ps pid = some p) : p ∈ ps ∧ p.id = pid := by
  refine ⟨List.mem_of_find?_eq_some h, ?_⟩
  have := List.find?_some h
  simpa using this

theorem findProduct_isSome {ps : List Product} {pid : Nat}
    (h : ∃ p ∈ ps, p.id = pid) : ∃ p, findProduct ps pid = some p := by
  obtain ⟨p, hp, hid⟩ := h
  have : (ps.find? (fun q => q.id == pid)).isSome := by
    apply List.find?_isSome.mpr
    exact ⟨p, hp, by simpa using hid⟩
  obtain ⟨q, hq⟩ := Option.isSome_iff_exists.mp this
  exact ⟨q, hq⟩

/-- Members of the batch-lookup result are active catalog rows whose id is
among the requested product ids. -/
theorem mem_resolvedProducts {db : DB} {input : CreateOrderInput} {p : Product}
    (h : p ∈ resolvedProducts db input) :
    p ∈ db.products ∧ p.is_active = true ∧ p.id ∈ input.items.map (·.product_id) := by
  have hmem := List.mem_of_mem_filter h
  have hprop := List.of_mem_filter h
  rw [Bool.and_eq_true] at hprop
  exact ⟨hmem, hprop.1, List.elem_iff.mp hprop.2⟩

/-- When the batch lookup returns as many rows as there are requested ids
(the `products.length !== productIds.length` guard passes) and catalog ids
are unique, the requested ids are pairwise distinct and every one of them
resolves — in the filtered list and in the catalog — to the same active
row. -/
theorem resolve_of_length_eq {db : DB} {input : CreateOrderInput}
    (hN : (db.products.map (·.id)).Nodup)
    (hlen : (resolvedProducts db input).length = (input.items.map (·.product_id)).length) :
    (input.items.map (·.product_id)).Nodup ∧
    ∀ pid ∈ input.items.map (·.product_id),
      ∃ p, findProduct (resolvedProducts db input) pid = some p ∧
        findProduct db.products pid = some p ∧ p.is_active = true := by
  classical
  set ids := input.items.map (·.product_id) with hids
  set F := resolvedProducts db input with hF
  have hsub : List.Sublist F db.products := List.filter_sublist _
  have hFN : (F.map (·.id)).Nodup := hN.sublist (hsub.map _)
  have hmemids : ∀ x ∈ F.map (·.id), x ∈ ids := by
    intro x hx
    obtain ⟨q, hq, rfl⟩ := List.mem_map.mp hx
    exact (mem_resolvedProducts hq).2.2
  have hsubset : (F.map (·.id)).toFinset ⊆ ids.toFinset := by
    intro x hx
    rw [List.mem_toFinset] at hx ⊢
    exact hmemids x hx
  have hcard1 : (F.map (·.id)).toFinset.card = ids.length := by
    rw [List.toFinset_card_of_nodup hFN, List.length_map]
    exact hlen
  have hcard2 : ids.toFinset.card ≤ ids.length := List.toFinset_card_le ids
  have hfineq : (F.map (·.id)).toFinset = ids.toFinset := by
    apply Finset.eq_of_subset_of_card_le hsubset
    calc ids.toFinset.card ≤ ids.length := hcard2
      _ = (F.map (·.id)).toFinset.card := hcard1.symm
  have hcard3 : ids.toFinset.card = ids.length := by
    rw [← hfineq]; exact hcard1
  have hnodup : ids.Nodup := by
    have := Multiset.toFinset_card_eq_card_iff_nodup (m := (ids : Multiset Nat))
    simpa using this.mp (by simpa using hcard3)
  refine ⟨hnodup, ?_⟩
  intro pid hpid
  have : pid ∈ (F.map (·.id)).toFinset := by
    rw [hfineq, List.mem_toFinset]; exact hpid
  rw [List.mem_toFinset, List.mem_map] at this
  obtain ⟨q, hqF, hqid⟩ := this
  obtain ⟨p, hp⟩ := findProduct_isSome ⟨q, hqF, hqid⟩
  obtain ⟨hpF, hpid'⟩ := findProduct_eq_some hp
  have hpdb : p ∈ db.products := hsub.subset hpF
  obtain ⟨r, hr⟩ := findProduct_isSome ⟨p, hpdb, hpid'⟩
  obtain ⟨hrdb, hrid⟩ := findProduct_eq_some hr
  have hrp : r = p := by
    apply List.inj_on_of_nodup_map hN hrdb hpdb
    simp [hrid, hpid']
  rw [hrp] at hr
  exact ⟨p, hp, hr, (mem_resolvedProducts hpF).2.1⟩

/-- The subtotal reduction, evaluated when every item's product resolves
in the lookup list to a row with the catalog price, equals the spec's
`Σ(product.price * quantity)`. -/
theorem orderSubtotal_eq_spec {F : List Product} {db : DB}
    {items : List CreateOrderItemInput}
    (h : ∀ it ∈ items,
      (findProduct F it.product_id).map (·.price) = some (catalogPrice db it.product_id)) :
    orderSubtotal F items =
      (items.map (fun it => catalogPrice db it.product_id * (it.quantity : ℚ))).sum := by
  suffices H : ∀ a : ℚ,
      items.foldl
        (fun s item =>
          match findProduct F item.product_id with
          | none => s
          | some p => s + p.price * (item.quantity : ℚ)) a =
        a + (items.map (fun it => catalogPrice db it.product_id * (it.quantity : ℚ))).sum by
    have := H 0
    simpa [orderSubtotal] using this
  induction items with
  | nil => intro a; simp
  | cons it rest ih =>
    intro a
    have hit := h it (by simp)
    have hrest : ∀ x ∈ rest,
        (findProduct F x.product_id).map (·.price) = some (catalogPrice db x.product_id) := by
      intro x hx; exact h x (by simp [hx])
    obtain ⟨p, hp⟩ : ∃ p, findProduct F it.product_id = some p := by
      cases hfind : findProduct F it.product_id with
      | none => rw [hfind] at hit; simp at hit
      | some p => exact ⟨p, rfl⟩
    have hprice : p.price = catalogPrice db it.product_id := by
      rw [hp] at hit; simpa using hit
    simp only [List.foldl_cons, List.map_cons, List.sum_cons, hp]
    rw [ih hrest (a + p.price * (it.quantity : ℚ)), hprice]
    ring

/-! ### Inversion of a successful `createOrder` run -/

theorem createOrder_ok_inv {db : DB} {now : Int} {year : Nat} {input : CreateOrderInput}
    {o : Order} {db' : DB}
    (h : createOrder db now year input = (.ok o, db')) :
    db.users.contains input.user_id = true ∧
    (resolvedProducts db input).length = (input.items.map (·.product_id)).length ∧
    firstStockViolation (resolvedProducts db input) input.items = none ∧
    o.id = db.nextOrderId ∧
    o.user_id = input.user_id ∧
    o.status = .pending ∧
    o.subtotal = orderSubtotal (resolvedProducts db input) input.items ∧
    o.coupon_id = (createOrderCoupon db.coupons input.coupon_code now o.subtotal).map (·.id) ∧
    o.discount_amount =
      (match createOrderCoupon db.coupons input.coupon_code now o.subtotal with
        | none => 0
        | some c => createOrderDiscount c o.subtotal) ∧
    o.tax_amount = (o.subtotal - o.discount_amount) * (1 / 10) ∧
    o.total_amount = o.subtotal + o.tax_amount - o.discount_amount ∧
    db'.users = db.users ∧
    db'.products =
      input.items.foldl
        (fun ps item =>
          match findProduct (resolvedProducts db input) item.product_id with
          | some p => setStock ps item.product_id (p.stock_quantity - item.quantity)
          | none => ps)
        db.products ∧
    db'.coupons =
      (match createOrderCoupon db.coupons input.coupon_code now o.subtotal with
        | none => db.coupons
        | some c =>
          db.coupons.map (fun x =>
            if x.id == c.id then { x with used_count := x.used_count + 1 } else x)) ∧
    db'.orders = db.orders ++ [o] ∧
    db'.orderItems =
      db.orderItems ++
        createOrderItems db.nextOrderId (resolvedProducts db input) db.nextItemId input.items ∧
    db'.nextOrderId = db.nextOrderId + 1 ∧
    db'.nextItemId = db.nextItemId + input.items.length := by
  unfold createOrder at h
  dsimp only at h
  split at h
  · simp at h
  · split at h
    · simp at h
    · split at h
      · simp at h
      · rename_i huser hlen hx hviol
        simp only [Prod.mk.injEq, Except.ok.injEq] at h
        obtain ⟨rfl, rfl⟩ := h
        simp only [Bool.not_eq_true] at huser hlen
        refine ⟨by simpa using huser, by simpa [List.length_map] using hlen, hviol, ?_⟩
        simp

/-- C1: for every successful `createOrder` call, the persisted order's
monetary fields satisfy the pricing pipeline: `subtotal` is the sum over
items of the catalog product's price times the item quantity, `tax_amount`
is `(subtotal - discount_amount) * 0.10`, and `total_amount` is
`subtotal + tax_amount - discount_amount`.  (The catalog-id uniqueness
hypothesis is the `products.id` primary-key constraint.) -/
theorem C1_createOrder_pricing {db : DB} {now : Int} {year : Nat}
    {input : CreateOrderInput} {o : Order} {db' : DB}
    (hN : (db.products.map (·.id)).Nodup)
    (h : createOrder db now year input = (.ok o, db')) :
    o.subtotal = specSubtotal db input ∧
    o.tax_amount = (o.subtotal - o.discount_amount) * (0.10 : ℚ) ∧
    o.total_amount = o.subtotal + o.tax_amount - o.discount_amount := by
  obtain ⟨hu, hlen, hviol, hid, huid, hst, hsub, hcid, hdisc, htax, htot, hrest⟩ :=
    createOrder_ok_inv h
  obtain ⟨hnodup, hres⟩ := resolve_of_length_eq hN hlen
  refine ⟨?_, by rw [htax]; norm_num, htot⟩
  rw [hsub, specSubtotal]
  apply orderSubtotal_eq_spec
  intro it hit
  obtain ⟨p, hpF, hpdb, _⟩ := hres it.product_id (List.mem_map.mpr ⟨it, hit, rfl⟩)
  rw [hpF]
  simp [catalogPrice, hpdb]

/-- Catalog row for the concrete witness scenarios: product 1 priced
99.99 with 10 in stock. -/
def wProduct : Product :=
  { id := 1, name := "Widget", price := 99.99, stock_quantity := 10, is_active := true }

/-- Store for the Scenario A witness. -/
def wDB : DB :=
  { users := [7], products := [wProduct], coupons := [], orders := [], orderItems := []
    nextOrderId := 100, nextItemId := 500 }

/-- Scenario A request: quantity 2 of product 1, no coupon. -/
def wInput : CreateOrderInput :=
  { user_id := 7
    items := [{ product_id := 1, quantity := 2, price := 99.99 }]
    coupon_code := none }

/-- The order Scenario A persists. -/
def wOrder : Order :=
  { id := 100, user_id := 7, order_number := mkOrderNumber 2024 0
    status := .pending, subtotal := 199.98, tax_amount := 19.998
    discount_amount := 0, total_amount := 219.978, coupon_id := none
    payment_method := none, payment_reference := none }

/-- The store after Scenario A. -/
def wDB' : DB :=
  { users := [7]
    products := [{ wProduct with stock_quantity := 8 }]
    coupons := []
    orders := [wOrder]
    orderItems := [{ id := 500, order_id := 100, product_id := 1, quantity := 2
                     unit_price := 99.99, total_price := 199.98
                     license_key := none, download_expires_at := none }]
    nextOrderId := 101, nextItemId := 501 }

theorem C1_witness :
    createOrder wDB 0 2024 wInput = (.ok wOrder, wDB') ∧
    wOrder.subtotal = 199.98 ∧ wOrder.tax_amount = 19.998 ∧
    wOrder.discount_amount = 0 ∧ wOrder.total_amount = 219.978 ∧
    (wOrder.subtotal = specSubtotal wDB wInput ∧
      wOrder.tax_amount = (wOrder.subtotal - wOrder.discount_amount) * (0.10 : ℚ) ∧
      wOrder.total_amount = wOrder.subtotal + wOrder.tax_amount - wOrder.discount_amount) := by
  have hrun : createOrder wDB 0 2024 wInput = (.ok wOrder, wDB') := by
    norm_num [createOrder, wDB, wInput, wOrder, wDB', wProduct, resolvedProducts,
      firstStockViolation, findProduct, orderSubtotal, createOrderCoupon,
      createOrderItems, setStock]
  have hN : (wDB.products.map (·.id)).Nodup := by
    simp [wDB, wProduct]
  refine ⟨hrun, by norm_num [wOrder], by norm_num [wOrder], by norm_num [wOrder],
    by norm_num [wOrder], C1_createOrder_pricing hN hrun⟩

/-- When some item violates the stock check, the stock-availability loop
stops at the first such item and reports its product. -/
theorem firstStockViolation_of_exists {ps : List Product}
    {items : List CreateOrderItemInput}
    (hx : ∃ it ∈ items, ∃ q, findProduct ps it.product_id = some q ∧
      q.stock_quantity < it.quantity) :
    ∃ p, firstStockViolation ps items = some p ∧
      ∃ it ∈ items, findProduct ps it.product_id = some p ∧
        p.stock_quantity < it.quantity := by
  induction items with
  | nil => simp at hx
  | cons it rest ih =>
    obtain ⟨w, hw, q, hfq, hqs⟩ := hx
    cases hfind : findProduct ps it.product_id with
    | none =>
      have hwrest : w ∈ rest := by
        rcases List.mem_cons.mp hw with rfl | h
        · rw [hfind] at hfq; exact absurd hfq (by simp)
        · exact h
      obtain ⟨p, hp, it', hit', hrest⟩ := ih ⟨w, hwrest, q, hfq, hqs⟩
      exact ⟨p, by simp [firstStockViolation, hfind, hp], it', by simp [hit'], hrest⟩
    | some p =>
      by_cases hlt : p.stock_quantity < it.quantity
      · exact ⟨p, by simp [firstStockViolation, hfind, hlt], it, by simp, hfind, hlt⟩
      · have hwrest : w ∈ rest := by
          rcases List.mem_cons.mp hw with rfl | h
          · rw [hfind] at hfq
            obtain rfl : q = p := by simpa using hfq.symm
            exact absurd hqs hlt
          · exact h
        obtain ⟨p', hp', it', hit', hrest⟩ := ih ⟨w, hwrest, q, hfq, hqs⟩
        refine ⟨p', ?_, it', by simp [hit'], hrest⟩
        simpa [firstStockViolation, hfind, hlt] using hp'

/-- C3: a `createOrder` request containing an item whose quantity exceeds
the resolved product's `stock_quantity` fails with the insufficient-stock
`Conflict` error naming that product, and the store is returned unchanged
(no order, no order items, no stock decrement, no coupon usage).  The two
leading hypotheses say the run gets past the user and product-resolution
guards, so the stock check is the one that fires. -/
theorem C3_insufficient_stock {db : DB} {now : Int} {year : Nat}
    {input : CreateOrderInput}
    (hu : db.users.contains input.user_id = true)
    (hlen : (resolvedProducts db input).length = (input.items.map (·.product_id)).length)
    (hx : ∃ it ∈ input.items, ∃ q,
      findProduct (resolvedProducts db input) it.product_id = some q ∧
        q.stock_quantity < it.quantity) :
    ∃ p, (∃ it ∈ input.items,
        findProduct (resolvedProducts db input) it.product_id = some p ∧
          p.stock_quantity < it.quantity) ∧
      createOrder db now year input = (.error (.insufficientStock p.name), db) := by
  obtain ⟨p, hviol, hwit⟩ := firstStockViolation_of_exists hx
  refine ⟨p, hwit, ?_⟩
  unfold createOrder
  rw [hu]
  simp only [Bool.not_true, Bool.false_eq_true, if_false]
  rw [hlen]
  simp [hviol]

/-- Scenario C request: quantity 15 of product 1, which has 10 in
stock. -/
def w3Input : CreateOrderInput :=
  { user_id := 7
    items := [{ product_id := 1, quantity := 15, price := 99.99 }]
    coupon_code := none }

theorem C3_witness :
    (10 : Int) < 15 ∧
    createOrder wDB 0 2024 w3Input = (.error (.insufficientStock "Widget"), wDB) := by
  have hu : wDB.users.contains w3Input.user_id = true := by norm_num [wDB, w3Input]
  have hlen : (resolvedProducts wDB w3Input).length =
      (w3Input.items.map (·.product_id)).length := by
    norm_num [resolvedProducts, wDB, w3Input, wProduct]
  have hfind : findProduct (resolvedProducts wDB w3Input)
      (({ product_id := 1, quantity := 15, price := 99.99 } :
        CreateOrderItemInput).product_id) = some wProduct := by
    norm_num [resolvedProducts, findProduct, wDB, w3Input, wProduct]
  have hx : ∃ it ∈ w3Input.items, ∃ q,
      findProduct (resolvedProducts wDB w3Input) it.product_id = some q ∧
        q.stock_quantity < it.quantity := by
    refine ⟨_, by simp [w3Input], wProduct, hfind, by norm_num [wProduct]⟩
  obtain ⟨p, hpwit, hrun⟩ := C3_insufficient_stock hu hlen hx
  obtain ⟨it, hit, hfp, hlt⟩ := hpwit
  have hitw : it = { product_id := 1, quantity := 15, price := 99.99 } := by
    simpa [w3Input] using hit
  rw [hitw] at hfp
  rw [hfind] at hfp
  obtain rfl : wProduct = p := by simpa using hfp
  exact ⟨by norm_num, by simpa [wProduct] using hrun⟩

/-! ### Guard characterizations for `validateCoupon` -/

theorem isExpiredAt_false_iff {c : Coupon} {now : Int} :
    isExpiredAt c now = false ↔ ∀ e ∈ c.expires_at, ¬ e < now := by
  unfold isExpiredAt; cases c.expires_at <;> simp

theorem usageExhausted_false_iff {c : Coupon} :
    usageExhausted c = false ↔ ∀ l ∈ c.usage_limit, c.used_count < l := by
  unfold usageExhausted; cases c.usage_limit <;> simp [Int.not_le]

theorem usageExhausted_true_iff {c : Coupon} :
    usageExhausted c = true ↔ ∃ l ∈ c.usage_limit, l ≤ c.used_count := by
  unfold usageExhausted; cases c.usage_limit <;> simp

theorem belowMinimum_false_iff {c : Coupon} {t : ℚ} :
    belowMinimum c t = false ↔ ∀ m ∈ c.minimum_order, m ≤ t := by
  unfold belowMinimum; cases c.minimum_order <;> simp [not_lt]

theorem validateCoupon_isValid_eq {db : DB} {code : String} {t : ℚ} {now : Int} {c : Coupon}
    (hfind : db.coupons.find? (fun x => x.code == code) = some c) :
    (validateCoupon db code t now).isValid =
      (c.is_active && !(isExpiredAt c now) && !(usageExhausted c) && !(belowMinimum c t)) := by
  unfold validateCoupon
  rw [hfind]
  dsimp only
  by_cases h1 : c.is_active <;> by_cases h2 : isExpiredAt c now <;>
    by_cases h3 : usageExhausted c <;> by_cases h4 : belowMinimum c t <;>
    simp [h1, h2, h3, h4]

/-- C9: `validateCoupon` accepts exactly when the coupon exists, is
active, is not expired, has usage remaining, and the order total meets the
minimum (inclusively — the guard is `orderTotal < minimum_order`); and an
exhausted usage limit on an otherwise live coupon yields the usage-limit
error message. -/
theorem C9_validateCoupon_spec (db : DB) (code : String) (t : ℚ) (now : Int) :
    ((validateCoupon db code t now).isValid = true ↔
      ∃ c, db.coupons.find? (fun x => x.code == code) = some c ∧
        c.is_active = true ∧
        (∀ e ∈ c.expires_at, ¬ e < now) ∧
        (∀ l ∈ c.usage_limit, c.used_count < l) ∧
        (∀ m ∈ c.minimum_order, m ≤ t)) ∧
    (∀ c, db.coupons.find? (fun x => x.code == code) = some c →
      c.is_active = true →
      (∀ e ∈ c.expires_at, ¬ e < now) →
      (∃ l ∈ c.usage_limit, l ≤ c.used_count) →
      validateCoupon db code t now =
        { isValid := false, coupon := none, discount := none,
          error := some "Coupon usage limit reached" }) := by
  constructor
  · cases hfind : db.coupons.find? (fun x => x.code == code) with
    | none =>
      unfold validateCoupon
      rw [hfind]
      simp [hfind]
    | some c =>
      rw [validateCoupon_isValid_eq hfind]
      simp only [hfind, Bool.and_eq_true, Bool.not_eq_true']
      simp [isExpiredAt_false_iff, usageExhausted_false_iff, belowMinimum_false_iff,
        and_assoc]
  · intro c hfind hact hexp hlim
    unfold validateCoupon
    rw [hfind]
    dsimp only
    simp [hact, isExpiredAt_false_iff.mpr hexp, usageExhausted_true_iff.mpr hlim]

/-- Exhausted coupon for Scenario E: `usage_limit = 1`, `used_count = 1`. -/
def w9Limit : Coupon :=
  { id := 11, code := "LIMIT1", discount_type := .fixed, discount_value := 5
    minimum_order := none, usage_limit := some 1, used_count := 1
    expires_at := none, is_active := true }

/-- Boundary coupon: `minimum_order = 50`. -/
def w9Save : Coupon :=
  { id := 12, code := "SAVE", discount_type := .percentage, discount_value := 20
    minimum_order := some 50, usage_limit := none, used_count := 0
    expires_at := none, is_active := true }

/-- Store for the coupon-validation witnesses. -/
def w9DB : DB :=
  { users := [], products := [], coupons := [w9Limit, w9Save], orders := []
    orderItems := [], nextOrderId := 1, nextItemId := 1 }

theorem C9_witness :
    validateCoupon w9DB "LIMIT1" 100 0 =
      { isValid := false, coupon := none, discount := none,
        error := some "Coupon usage limit reached" } ∧
    (validateCoupon w9DB "SAVE" 49.99 0).isValid = false ∧
    (validateCoupon w9DB "SAVE" 50 0).isValid = true := by
  have hfind : w9DB.coupons.find? (fun x => x.code == "LIMIT1") = some w9Limit := by
    simp [w9DB, w9Limit, List.find?]
  have h1 := (C9_validateCoupon_spec w9DB "LIMIT1" 100 0).2 w9Limit hfind
    (by simp [w9Limit]) (by simp [w9Limit]) ⟨1, by simp [w9Limit], by simp [w9Limit]⟩
  have hfind2 : w9DB.coupons.find? (fun x => x.code == "SAVE") = some w9Save := by
    simp [w9DB, w9Limit, w9Save, List.find?]
  have h2 : (validateCoupon w9DB "SAVE" 49.99 0).isValid = false := by
    rw [validateCoupon_isValid_eq hfind2]
    norm_num [w9Save, isExpiredAt, usageExhausted, belowMinimum]
  have h3 : (validateCoupon w9DB "SAVE" 50 0).isValid = true := by
    rw [validateCoupon_isValid_eq hfind2]
    norm_num [w9Save, isExpiredAt, usageExhausted, belowMinimum]
  exact ⟨h1, h2, h3⟩

/-- Ten-percent coupon used by the `applyCoupon` invariant probe. -/
def w2Coupon : Coupon :=
  { id := 21, code := "TEN", discount_type := .percentage, discount_value := 10
    minimum_order := none, usage_limit := none, used_count := 0
    expires_at := none, is_active := true }

/-- An order as `createOrder` persists it with no coupon: subtotal 100,
tax 10, discount 0, total 110 (the invariant holds here). -/
def w2Order : Order :=
  { id := 1, user_id := 7, order_number := "ORD-2024-000001", status := .pending
    subtotal := 100, tax_amount := 10, discount_amount := 0, total_amount := 110
    coupon_id := none, payment_method := none, payment_reference := none }

/-- Store holding that order and the `TEN` coupon. -/
def w2DB : DB :=
  { users := [7], products := [], coupons := [w2Coupon], orders := [w2Order]
    orderItems := [], nextOrderId := 2, nextItemId := 1 }

/-- C2 fails on the code: `applyCoupon` succeeds on a well-formed order
but writes `total_amount = subtotal - discount = 90` while leaving
`tax_amount = 10` in place, so
`subtotal + tax_amount - discount_amount = 100` differs from the stored
total by `10` — far beyond a two-decimal rounding tolerance. -/
theorem C2_applyCoupon_breaks_invariant :
    (applyCoupon w2DB "TEN" 1 0).1.success = true ∧
    ∃ o, (applyCoupon w2DB "TEN" 1 0).2.orders.find? (fun x => x.id == 1) = some o ∧
      o.subtotal = 100 ∧ o.tax_amount = 10 ∧ o.discount_amount = 10 ∧
      o.total_amount = 90 ∧
      o.subtotal + o.tax_amount - o.discount_amount = 100 ∧
      ¬ |o.total_amount - (o.subtotal + o.tax_amount - o.discount_amount)| ≤ 1 / 100 := by
  have hrun : applyCoupon w2DB "TEN" 1 0 =
      ({ success := true, discount := some 10, error := none },
        { w2DB with
            coupons := [{ w2Coupon with used_count := 1 }]
            orders := [{ w2Order with
                           coupon_id := some 21, discount_amount := 10,
                           total_amount := 90 }] }) := by
    norm_num [applyCoupon, validateCoupon, isExpiredAt, usageExhausted, belowMinimum,
      w2DB, w2Coupon, w2Order, List.find?]
  constructor
  · rw [hrun]
  · refine ⟨{ w2Order with coupon_id := some 21, discount_amount := 10, total_amount := 90 },
      ?_, ?_⟩
    · rw [hrun]
      simp [w2DB, w2Order, List.find?]
    · norm_num [w2Order]

/-- The `createOrder` eligibility test spelled out as propositions.  Note
the JavaScript-truthiness artifact: a `usage_limit` of `0` passes the
usage check. -/
theorem createOrderCouponEligible_iff {c : Coupon} {now : Int} {S : ℚ} :
    createOrderCouponEligible c now S = true ↔
      (∀ e ∈ c.expires_at, now < e) ∧
      (∀ l ∈ c.usage_limit, l = 0 ∨ c.used_count < l) ∧
      (∀ m ∈ c.minimum_order, m ≤ S) := by
  unfold createOrderCouponEligible
  cases c.expires_at <;> cases c.usage_limit <;> cases c.minimum_order <;>
    simp [Bool.or_eq_true, or_comm, and_assoc]

/-- Whether `createOrder` succeeds never depends on the coupon code: the
user, product and stock guards run before the coupon is consulted, and an
absent or ineligible coupon is silently ignored. -/
theorem createOrder_isOk_coupon_indep (db : DB) (now : Int) (year : Nat)
    (input : CreateOrderInput) :
    (createOrder db now year input).1.isOk =
      (createOrder db now year { input with coupon_code := none }).1.isOk := by
  unfold createOrder
  dsimp only
  rw [show resolvedProducts db
      { user_id := input.user_id, items := input.items, coupon_code := none } =
      resolvedProducts db input from rfl]
  by_cases h1 : (!db.users.contains input.user_id) = true
  · rw [if_pos h1, if_pos h1]
  · rw [if_neg h1, if_neg h1]
    by_cases h2 : ((resolvedProducts db input).length !=
        (input.items.map (·.product_id)).length) = true
    · rw [if_pos h2, if_pos h2]
    · rw [if_neg h2, if_neg h2]
      cases hv : firstStockViolation (resolvedProducts db input) input.items <;>
        simp [Except.isOk, Except.toBool]

/-- C4 (amended): in a successful `createOrder` run that supplies a
coupon code, a coupon that fails the active-lookup (no such code, or the
coupon is not `is_active` — codes are unique per the store's index) or
fails eligibility is silently ignored: zero discount, no coupon
reference, coupons table untouched — and the call's success never depends
on the coupon.  An eligible coupon yields the type-dependent discount and
a single `used_count` increment — where eligibility treats a
`usage_limit` of `0` as *no* limit. -/
theorem C4_coupon_eligibility {db : DB} {now : Int} {year : Nat}
    {input : CreateOrderInput} {o : Order} {db' : DB} {code : String}
    (h : createOrder db now year input = (.ok o, db'))
    (hcode : input.coupon_code = some code) :
    (db.coupons.find? (fun x => x.code == code && x.is_active) = none →
      o.discount_amount = 0 ∧ o.coupon_id = none ∧ db'.coupons = db.coupons) ∧
    (∀ c, (db.coupons.map (·.code)).Nodup →
      db.coupons.find? (fun x => x.code == code) = some c →
      c.is_active = false →
      o.discount_amount = 0 ∧ o.coupon_id = none ∧ db'.coupons = db.coupons) ∧
    (∀ c, db.coupons.find? (fun x => x.code == code && x.is_active) = some c →
      ((createOrderCouponEligible c now o.subtotal = true ↔
        (∀ e ∈ c.expires_at, now < e) ∧
        (∀ l ∈ c.usage_limit, l = 0 ∨ c.used_count < l) ∧
        (∀ m ∈ c.minimum_order, m ≤ o.subtotal)) ∧
      (createOrderCouponEligible c now o.subtotal = false →
        o.discount_amount = 0 ∧ o.coupon_id = none ∧ db'.coupons = db.coupons) ∧
      (createOrderCouponEligible c now o.subtotal = true →
        o.discount_amount = createOrderDiscount c o.subtotal ∧
        o.coupon_id = some c.id ∧
        db'.coupons = db.coupons.map (fun x =>
          if x.id == c.id then { x with used_count := x.used_count + 1 } else x)))) ∧
    (createOrder db now year { input with coupon_code := none }).1.isOk = true := by
  obtain ⟨hu, hlen, hviol, hid, huid, hst, hsub, hcid, hdisc, htax, htot, husers,
    hprod, hcoup, hords, hitems, hnoid, hniid⟩ := createOrder_ok_inv h
  rw [hcode] at hcid hdisc hcoup
  rw [createOrderCoupon.eq_def] at hcid hdisc hcoup
  have hnonecase : db.coupons.find? (fun x => x.code == code && x.is_active) = none →
      o.discount_amount = 0 ∧ o.coupon_id = none ∧ db'.coupons = db.coupons := by
    intro hfind
    simp only [hfind] at hcid hdisc hcoup
    exact ⟨hdisc, hcid, hcoup⟩
  refine ⟨hnonecase, ?_, ?_, ?_⟩
  · intro c huniq hc hinact
    apply hnonecase
    rw [List.find?_eq_none]
    intro x hx
    simp only [Bool.and_eq_true, not_and]
    intro hcx
    have hcmem : c ∈ db.coupons := List.mem_of_find?_eq_some hc
    have hccode : c.code = code := by simpa using List.find?_some hc
    have hxc : x = c := by
      apply List.inj_on_of_nodup_map huniq hx hcmem
      rw [hccode]
      simpa using hcx
    rw [hxc, hinact]
    simp
  · intro c hfind
    refine ⟨createOrderCouponEligible_iff, ?_, ?_⟩
    · intro helig
      simp only [hfind, helig, if_false, Bool.false_eq_true] at hcid hdisc hcoup
      exact ⟨hdisc, hcid, hcoup⟩
    · intro helig
      simp only [hfind, helig, if_true] at hcid hdisc hcoup
      exact ⟨by simpa using hdisc, by simpa using hcid, by simpa using hcoup⟩
  · rw [← createOrder_isOk_coupon_indep db now year input, h]
    rfl


/-- A coupon whose `usage_limit` is `0` and whose `used_count` is `3` —
its usage limit is (long) reached. -/
def c4Coupon : Coupon :=
  { id := 31, code := "ZERO", discount_type := .percentage, discount_value := 10
    minimum_order := none, usage_limit := some 0, used_count := 3
    expires_at := none, is_active := true }

/-- Store for the `usage_limit = 0` probe. -/
def c4DB : DB :=
  { users := [7], products := [wProduct], coupons := [c4Coupon], orders := []
    orderItems := [], nextOrderId := 100, nextItemId := 500 }

/-- Request using the exhausted-by-the-claim coupon. -/
def c4Input : CreateOrderInput :=
  { user_id := 7
    items := [{ product_id := 1, quantity := 2, price := 99.99 }]
    coupon_code := some "ZERO" }

/-- The order the code actually persists for that request: the coupon IS
applied. -/
def c4Order : Order :=
  { id := 100, user_id := 7, order_number := mkOrderNumber 2024 0
    status := .pending, subtotal := 199.98, tax_amount := 17.9982
    discount_amount := 19.998, total_amount := 197.9802, coupon_id := some 31
    payment_method := none, payment_reference := none }

/-- The store after that request: `used_count` went from 3 to 4. -/
def c4DB' : DB :=
  { users := [7]
    products := [{ wProduct with stock_quantity := 8 }]
    coupons := [{ c4Coupon with used_count := 4 }]
    orders := [c4Order]
    orderItems := [{ id := 500, order_id := 100, product_id := 1, quantity := 2
                     unit_price := 99.99, total_price := 199.98
                     license_key := none, download_expires_at := none }]
    nextOrderId := 101, nextItemId := 501 }

/-- C4 as stated is false: for a coupon whose `used_count` (3) has reached
its `usage_limit` (0), the claim demands `discount_amount = 0` and a null
`coupon_id`, but `createOrder` treats the falsy limit `0` as no limit and
applies the coupon: discount 19.998, `coupon_id = 31`, `used_count`
bumped to 4. -/
theorem C4_counterexample :
    (∃ l ∈ c4Coupon.usage_limit, l ≤ c4Coupon.used_count) ∧
    createOrder c4DB 0 2024 c4Input = (.ok c4Order, c4DB') ∧
    c4Order.discount_amount = 19.998 ∧
    ¬ (c4Order.discount_amount = 0 ∧ c4Order.coupon_id = none) := by
  refine ⟨⟨0, by simp [c4Coupon], by simp [c4Coupon]⟩, ?_, by norm_num [c4Order], ?_⟩
  · norm_num [createOrder, c4DB, c4Input, c4Coupon, c4Order, c4DB', wProduct,
      resolvedProducts, findProduct, firstStockViolation, orderSubtotal,
      createOrderCoupon, createOrderCouponEligible, createOrderDiscount,
      createOrderItems, setStock, List.find?]
  · intro hcl
    have := hcl.1
    norm_num [c4Order] at this

/-- An inactive ten-percent coupon. -/
def c4InactCoupon : Coupon :=
  { id := 32, code := "OFF", discount_type := .percentage, discount_value := 10
    minimum_order := none, usage_limit := none, used_count := 0
    expires_at := none, is_active := false }

/-- Store holding only the inactive coupon. -/
def c4DBi : DB :=
  { users := [7], products := [wProduct], coupons := [c4InactCoupon], orders := []
    orderItems := [], nextOrderId := 100, nextItemId := 500 }

/-- Request naming the inactive coupon. -/
def c4InputI : CreateOrderInput :=
  { user_id := 7
    items := [{ product_id := 1, quantity := 2, price := 99.99 }]
    coupon_code := some "OFF" }

/-- The order persisted for that request: no discount, no coupon
reference. -/
def c4OrderI : Order :=
  { id := 100, user_id := 7, order_number := mkOrderNumber 2024 0
    status := .pending, subtotal := 199.98, tax_amount := 19.998
    discount_amount := 0, total_amount := 219.978, coupon_id := none
    payment_method := none, payment_reference := none }

/-- The store after that request: the coupons table untouched. -/
def c4DBi' : DB :=
  { users := [7]
    products := [{ wProduct with stock_quantity := 8 }]
    coupons := [c4InactCoupon]
    orders := [c4OrderI]
    orderItems := [{ id := 500, order_id := 100, product_id := 1, quantity := 2
                     unit_price := 99.99, total_price := 199.98
                     license_key := none, download_expires_at := none }]
    nextOrderId := 101, nextItemId := 501 }

theorem C4_witness :
    (createOrderCouponEligible c4Coupon 0 c4Order.subtotal = true ∧
      c4Order.discount_amount = createOrderDiscount c4Coupon c4Order.subtotal ∧
      c4Order.coupon_id = some c4Coupon.id ∧
      c4DB'.coupons = c4DB.coupons.map (fun x =>
        if x.id == c4Coupon.id then { x with used_count := x.used_count + 1 } else x)) ∧
    (c4InactCoupon.is_active = false ∧
      createOrder c4DBi 0 2024 c4InputI = (.ok c4OrderI, c4DBi') ∧
      c4OrderI.discount_amount = 0 ∧ c4OrderI.coupon_id = none ∧
      c4DBi'.coupons = c4DBi.coupons) := by
  have hrun : createOrder c4DB 0 2024 c4Input = (.ok c4Order, c4DB') := by
    norm_num [createOrder, c4DB, c4Input, c4Coupon, c4Order, c4DB', wProduct,
      resolvedProducts, findProduct, firstStockViolation, orderSubtotal,
      createOrderCoupon, createOrderCouponEligible, createOrderDiscount,
      createOrderItems, setStock, List.find?]
  have hfind : c4DB.coupons.find? (fun x => x.code == "ZERO" && x.is_active) =
      some c4Coupon := by
    simp [c4DB, c4Coupon, List.find?]
  have helig : createOrderCouponEligible c4Coupon 0 c4Order.subtotal = true := by
    norm_num [createOrderCouponEligible, c4Coupon, c4Order]
  have hrunI : createOrder c4DBi 0 2024 c4InputI = (.ok c4OrderI, c4DBi') := by
    norm_num [createOrder, c4DBi, c4InputI, c4InactCoupon, c4OrderI, c4DBi', wProduct,
      resolvedProducts, findProduct, firstStockViolation, orderSubtotal,
      createOrderCoupon, createOrderCouponEligible, createOrderDiscount,
      createOrderItems, setStock, List.find?]
  have hfindI : c4DBi.coupons.find? (fun x => x.code == "OFF") = some c4InactCoupon := by
    simp [c4DBi, c4InactCoupon, List.find?]
  have hinact := (C4_coupon_eligibility hrunI rfl).2.1 c4InactCoupon
    (by simp [c4DBi, c4InactCoupon]) hfindI rfl
  exact ⟨⟨helig, (C4_coupon_eligibility hrun rfl).2.2.1 c4Coupon hfind |>.2.2 helig⟩,
    rfl, hrunI, hinact⟩

/-! ### License-key generation: structure of the update fold -/

/-- Per-row effect of the whole key-assignment fold. -/
def rowAssign (kg : Nat → String) (now : Int) (pairs : List (Nat × OrderItem))
    (x : OrderItem) : OrderItem :=
  pairs.foldl (fun x pair => assignKey pair.2.id ("LIC-" ++ kg pair.1) (now + thirtyDaysMs) x) x

theorem genFold_orderItems (db : DB) (kg : Nat → String) (now : Int)
    (pairs : List (Nat × OrderItem)) :
    (pairs.foldl
      (fun acc pair =>
        { acc with
            orderItems := acc.orderItems.map
              (assignKey pair.2.id ("LIC-" ++ kg pair.1) (now + thirtyDaysMs)) })
      db).orderItems = db.orderItems.map (rowAssign kg now pairs) ∧
    (pairs.foldl
      (fun acc pair =>
        { acc with
            orderItems := acc.orderItems.map
              (assignKey pair.2.id ("LIC-" ++ kg pair.1) (now + thirtyDaysMs)) })
      db).products = db.products := by
  induction pairs generalizing db with
  | nil =>
    refine ⟨?_, rfl⟩
    have : ∀ x ∈ db.orderItems, rowAssign kg now [] x = x := by
      intro x _; simp [rowAssign]
    simp [List.map_congr_left this]
  | cons p rest ih =>
    simp only [List.foldl_cons]
    obtain ⟨h1, h2⟩ := ih
      { db with
          orderItems := db.orderItems.map
            (assignKey p.2.id ("LIC-" ++ kg p.1) (now + thirtyDaysMs)) }
    refine ⟨?_, by simpa using h2⟩
    rw [h1]
    simp only [List.map_map]
    apply List.map_congr_left
    intro x _
    simp [rowAssign, Function.comp]

theorem assignKey_preserves (itemId : Nat) (key : String) (expiry : Int) (x : OrderItem) :
    (assignKey itemId key expiry x).id = x.id ∧
    (assignKey itemId key expiry x).order_id = x.order_id ∧
    (assignKey itemId key expiry x).product_id = x.product_id := by
  unfold assignKey
  split <;> simp

theorem rowAssign_preserves (kg : Nat → String) (now : Int)
    (pairs : List (Nat × OrderItem)) (x : OrderItem) :
    (rowAssign kg now pairs x).id = x.id ∧
    (rowAssign kg now pairs x).order_id = x.order_id ∧
    (rowAssign kg now pairs x).product_id = x.product_id := by
  induction pairs generalizing x with
  | nil => simp [rowAssign]
  | cons p rest ih =>
    have hstep := assignKey_preserves p.2.id ("LIC-" ++ kg p.1) (now + thirtyDaysMs) x
    have := ih (assignKey p.2.id ("LIC-" ++ kg p.1) (now + thirtyDaysMs) x)
    simp only [rowAssign, List.foldl_cons] at *
    omega

theorem rowAssign_key_none (kg : Nat → String) (now : Int)
    (pairs : List (Nat × OrderItem)) (x : OrderItem)
    (h : (rowAssign kg now pairs x).license_key = none) :
    x.license_key = none ∧ ∀ pair ∈ pairs, ¬ x.id = pair.2.id := by
  induction pairs generalizing x with
  | nil => simpa [rowAssign] using h
  | cons p rest ih =>
    rw [rowAssign, List.foldl_cons] at h
    obtain ⟨h1, h2⟩ := ih _ h
    by_cases hid : (x.id == p.2.id) = true
    · rw [assignKey, if_pos hid] at h1
      simp at h1
    · rw [assignKey, if_neg hid] at h1 h2
      refine ⟨h1, ?_⟩
      intro pair hpair
      rcases List.mem_cons.mp hpair with rfl | hmem
      · simpa using hid
      · exact h2 pair hmem

theorem rowAssign_skips (kg : Nat → String) (now : Int)
    (pairs : List (Nat × OrderItem)) (x : OrderItem)
    (h : ∀ pair ∈ pairs, ¬ x.id = pair.2.id) :
    rowAssign kg now pairs x = x := by
  induction pairs with
  | nil => simp [rowAssign]
  | cons p rest ih =>
    rw [rowAssign, List.foldl_cons, assignKey,
      if_neg (by simpa using h p (by simp))]
    exact ih (fun pair hpair => h pair (by simp [hpair]))

/-- Membership in the `generateLicenseKeys` select, spelled out. -/
theorem mem_needingKeys {db : DB} {oid : Nat} {x : OrderItem} :
    x ∈ needingKeys db oid ↔
      x ∈ db.orderItems ∧ x.order_id = oid ∧ x.license_key = none ∧
        ∃ p ∈ db.products, p.id = x.product_id := by
  unfold needingKeys
  rw [List.mem_filter]
  simp only [Bool.and_eq_true, Option.isNone_iff_eq_none, List.any_eq_true, beq_iff_eq]
  constructor
  · rintro ⟨h1, ⟨h2, h3⟩, h4⟩
    exact ⟨h1, h2, h3, h4⟩
  · rintro ⟨h1, h2, h3, h4⟩
    exact ⟨h1, ⟨h2, h3⟩, h4⟩

/-- C7: `generateLicenseKeys` always reports success (in particular when
zero items need keys, where it leaves the store untouched), assigns keys
only to rows whose `license_key` is null (rows already keyed survive
unchanged), and is idempotent: an immediate second invocation — under any
later clock and any fresh randomness — returns `true` and changes
nothing, so the set of license keys is identical. -/
theorem C7_generateLicenseKeys_idempotent (db : DB) (oid : Nat)
    (kg kg' : Nat → String) (now now' : Int) :
    (generateLicenseKeys db oid kg now).1 = true ∧
    generateLicenseKeys (generateLicenseKeys db oid kg now).2 oid kg' now' =
      (true, (generateLicenseKeys db oid kg now).2) ∧
    (needingKeys db oid = [] → generateLicenseKeys db oid kg now = (true, db)) ∧
    ((db.orderItems.map (·.id)).Nodup →
      ∀ it ∈ db.orderItems, it.license_key.isSome = true →
        it ∈ (generateLicenseKeys db oid kg now).2.orderItems) := by
  by_cases h0 : needingKeys db oid = []
  · have hgen : generateLicenseKeys db oid kg now = (true, db) := by
      simp [generateLicenseKeys, h0]
    rw [hgen]
    exact ⟨rfl, by simp [generateLicenseKeys, h0], fun _ => rfl, fun _ it hit _ => hit⟩
  · have hlen0 : ((needingKeys db oid).length == 0) = false := by
      simpa using fun h => h0 (List.length_eq_zero.mp h)
    have hgen : generateLicenseKeys db oid kg now =
        (true,
          ((List.range (needingKeys db oid).length).zip (needingKeys db oid)).foldl
            (fun acc pair =>
              { acc with
                  orderItems := acc.orderItems.map
                    (assignKey pair.2.id ("LIC-" ++ kg pair.1) (now + thirtyDaysMs)) })
            db) := by
      unfold generateLicenseKeys
      dsimp only
      rw [hlen0]
      simp
    obtain ⟨hitems, hprods⟩ := genFold_orderItems db kg now
      ((List.range (needingKeys db oid).length).zip (needingKeys db oid))
    have hsnd : ((List.range (needingKeys db oid).length).zip (needingKeys db oid)).map
        Prod.snd = needingKeys db oid :=
      List.map_snd_zip _ _ (by simp)
    have hempty2 : needingKeys (generateLicenseKeys db oid kg now).2 oid = [] := by
      rw [List.eq_nil_iff_forall_not_mem]
      intro x hx
      rw [mem_needingKeys] at hx
      obtain ⟨hxmem, hord, hkey, p, hp, hpid⟩ := hx
      rw [hgen] at hxmem hp
      dsimp only at hxmem hp
      rw [hitems] at hxmem
      rw [hprods] at hp
      obtain ⟨y, hy, rfl⟩ := List.mem_map.mp hxmem
      obtain ⟨hynone, hnoid⟩ := rowAssign_key_none kg now _ y hkey
      obtain ⟨hidp, hordp, hpidp⟩ := rowAssign_preserves kg now
        ((List.range (needingKeys db oid).length).zip (needingKeys db oid)) y
      have hyP : y ∈ needingKeys db oid := by
        rw [mem_needingKeys]
        exact ⟨hy, by rw [hordp] at hord; exact hord, hynone,
          p, hp, by rw [hpidp] at hpid; exact hpid⟩
      rw [← hsnd] at hyP
      obtain ⟨pair, hpair, hpy⟩ := List.mem_map.mp hyP
      exact hnoid pair hpair (by rw [hpy])
    refine ⟨by rw [hgen], ?_, fun hemp => absurd hemp h0, ?_⟩
    · generalize hD : (generateLicenseKeys db oid kg now).2 = D at hempty2 ⊢
      simp [generateLicenseKeys, hempty2]
    · intro hN it hit hsome
      rw [hgen]
      dsimp only
      rw [hitems]
      have hskip : rowAssign kg now
          ((List.range (needingKeys db oid).length).zip (needingKeys db oid)) it = it := by
        apply rowAssign_skips
        intro pair hpair hid
        have hp2 : pair.2 ∈ needingKeys db oid := by
          rw [← hsnd]
          exact List.mem_map.mpr ⟨pair, hpair, rfl⟩
        rw [mem_needingKeys] at hp2
        obtain ⟨hp2mem, _, hp2none, _⟩ := hp2
        have heq : it = pair.2 :=
          List.inj_on_of_nodup_map hN hit hp2mem (by simpa using hid)
        rw [← heq] at hp2none
        rw [hp2none] at hsome
        simp at hsome
      exact List.mem_map.mpr ⟨it, hit, hskip⟩

/-- An unkeyed order item of order 9. -/
def w7Item : OrderItem :=
  { id := 41, order_id := 9, product_id := 1, quantity := 1, unit_price := 99.99
    total_price := 99.99, license_key := none, download_expires_at := none }

/-- Store for the license-key witness. -/
def w7DB : DB :=
  { users := [7], products := [wProduct], coupons := [], orders := []
    orderItems := [w7Item], nextOrderId := 1, nextItemId := 42 }

theorem C7_witness :
    (generateLicenseKeys w7DB 9 (fun _ => "X") 0).1 = true ∧
    generateLicenseKeys (generateLicenseKeys w7DB 9 (fun _ => "X") 0).2 9
        (fun _ => "Y") 123 =
      (true, (generateLicenseKeys w7DB 9 (fun _ => "X") 0).2) ∧
    (generateLicenseKeys w7DB 9 (fun _ => "X") 0).2.orderItems =
      [{ w7Item with license_key := some "LIC-X"
                     download_expires_at := some thirtyDaysMs }] := by
  have h := C7_generateLicenseKeys_idempotent w7DB 9 (fun _ => "X") (fun _ => "Y") 0 123
  refine ⟨h.1, h.2.1, ?_⟩
  norm_num [generateLicenseKeys, needingKeys, assignKey, w7DB, w7Item, wProduct,
    show List.range 1 = [0] from by decide, List.zip_cons_cons, List.zip_nil_right,
    show "LIC-" ++ "X" = "LIC-X" from by decide]

/-! ### Stock-restore fold of `refundOrder` -/

/-- Total quantity of product `pid` in an item list. -/
def itemsQty (its : List OrderItem) (pid : Nat) : Int :=
  ((its.filter (fun it => it.product_id == pid)).map (·.quantity)).sum

/-- One read-then-update step of the refund stock restore, as a pointwise
map (valid because catalog ids are unique). -/
theorem refundStep_eq_map {ps : List Product} {it : OrderItem}
    (hN : (ps.map (·.id)).Nodup) :
    (match ps.find? (fun p => p.id == it.product_id) with
      | some p => setStock ps it.product_id (p.stock_quantity + it.quantity)
      | none => ps) =
    ps.map (fun p =>
      if p.id == it.product_id then
        { p with stock_quantity := p.stock_quantity + it.quantity }
      else p) := by
  cases hfind : ps.find? (fun p => p.id == it.product_id) with
  | none =>
    have hnone := List.find?_eq_none.mp hfind
    have : ∀ p ∈ ps, (fun p =>
        if p.id == it.product_id then
          { p with stock_quantity := p.stock_quantity + it.quantity }
        else p) p = id p := by
      intro p hp
      simp only [id]
      rw [if_neg (hnone p hp)]
    rw [List.map_congr_left this, List.map_id]
  | some q =>
    have hq := List.find?_some hfind
    have hqmem := List.mem_of_find?_eq_some hfind
    unfold setStock
    apply List.map_congr_left
    intro p hp
    by_cases hid : (p.id == it.product_id) = true
    · rw [if_pos hid, if_pos hid]
      have : p = q := by
        apply List.inj_on_of_nodup_map hN hp hqmem
        rw [beq_iff_eq] at hid hq
        rw [hid, hq]
      rw [this]
    · rw [if_neg hid, if_neg hid]

/-- Map steps preserve the id column. -/
theorem map_bump_ids (ps : List Product) (pid : Nat) (q : Int) :
    ((ps.map (fun p =>
      if p.id == pid then { p with stock_quantity := p.stock_quantity + q } else p)).map
        (·.id)) = ps.map (·.id) := by
  rw [List.map_map]
  apply List.map_congr_left
  intro p _
  by_cases hid : (p.id == pid) = true <;> simp [hid, Function.comp]

/-- The whole refund restore fold: every product's stock grows by the
total refunded quantity of that product. -/
theorem refundFold_eq_map {ps : List Product} {its : List OrderItem}
    (hN : (ps.map (·.id)).Nodup) :
    its.foldl
      (fun ps it =>
        match ps.find? (fun p => p.id == it.product_id) with
        | some p => setStock ps it.product_id (p.stock_quantity + it.quantity)
        | none => ps)
      ps =
    ps.map (fun p => { p with stock_quantity := p.stock_quantity + itemsQty its p.id }) := by
  induction its generalizing ps with
  | nil =>
    have : ∀ p ∈ ps, ({ p with stock_quantity := p.stock_quantity + itemsQty [] p.id } :
        Product) = id p := by
      intro p _
      simp [itemsQty]
    rw [List.foldl_nil, List.map_congr_left this, List.map_id]
  | cons i R ih =>
    rw [List.foldl_cons, refundStep_eq_map hN]
    have hN' : ((ps.map (fun p =>
        if p.id == i.product_id then
          { p with stock_quantity := p.stock_quantity + i.quantity }
        else p)).map (·.id)).Nodup := by
      rw [map_bump_ids]
      exact hN
    rw [ih hN']
    rw [List.map_map]
    apply List.map_congr_left
    intro p _
    simp only [Function.comp]
    by_cases hid : (p.id == i.product_id) = true
    · rw [if_pos hid]
      have hq : itemsQty (i :: R) p.id = i.quantity + itemsQty R p.id := by
        unfold itemsQty
        rw [beq_iff_eq] at hid
        rw [List.filter_cons, if_pos (by simpa using hid.symm)]
        simp
      simp [hq]
      ring
    · rw [if_neg hid]
      have hq : itemsQty (i :: R) p.id = itemsQty R p.id := by
        unfold itemsQty
        rw [List.filter_cons, if_neg ?_]
        intro hcon
        rw [beq_iff_eq] at hcon hid
        exact hid (by rw [hcon])
      simp [hq]

/-- Quantities per product are unchanged by the license-nulling rewrite,
and filtering the rewritten rows to the order matches the
`restoredQty` accounting on the original store. -/
theorem itemsQty_null_filter (l : List OrderItem) (oid pid : Nat) :
    itemsQty ((l.map (fun it =>
      if it.order_id == oid then
        { it with license_key := none, download_expires_at := none }
      else it)).filter (fun it => it.order_id == oid)) pid =
    ((l.filter (fun it => it.order_id == oid && it.product_id == pid)).map
      (·.quantity)).sum := by
  induction l with
  | nil => simp [itemsQty]
  | cons x rest ih =>
    by_cases hord : (x.order_id == oid) = true
    · by_cases hpid : (x.product_id == pid) = true
      · simp only [List.map_cons, if_pos hord, List.filter_cons]
        rw [itemsQty] at *
        simp only [hord, hpid, if_pos, List.filter_cons, Bool.and_eq_true] at *
        simp_all
      · simp only [List.map_cons, if_pos hord, List.filter_cons]
        rw [itemsQty] at *
        simp only [hord, hpid, List.filter_cons, Bool.and_eq_true] at *
        simp_all
    · simp only [List.map_cons, if_neg hord, List.filter_cons]
      rw [itemsQty] at *
      simp only [hord, List.filter_cons, Bool.and_eq_true] at *
      simp_all

/-- C5: `refundOrder` on an existing order fails with the
cannot-be-refunded error and an untouched store whenever the status is
outside {paid, completed} (in particular for `pending` and for an
already-`refunded` order), and on a paid or completed order it atomically
sets the status to `refunded`, nulls every item's `license_key` and
`download_expires_at`, and adds back each product's refunded quantity. -/
theorem C5_refundOrder {db : DB} {oid : Nat} {o : Order}
    (hfind : db.orders.find? (fun x => x.id == oid) = some o) :
    (o.status ≠ .paid → o.status ≠ .completed →
      refundOrder db oid =
        ({ success := false, error := some "Order cannot be refunded" }, db)) ∧
    ((o.status = .paid ∨ o.status = .completed) →
      (db.products.map (·.id)).Nodup →
      refundOrder db oid =
        ({ success := true, error := none },
          { db with
              orders := db.orders.map (fun x =>
                if x.id == oid then { x with status := .refunded } else x)
              orderItems := db.orderItems.map (fun it =>
                if it.order_id == oid then
                  { it with license_key := none, download_expires_at := none }
                else it)
              products := db.products.map (fun p =>
                { p with
                    stock_quantity := p.stock_quantity + restoredQty db oid p.id }) })) := by
  constructor
  · intro h1 h2
    unfold refundOrder
    rw [hfind]
    dsimp only
    rw [if_pos (by simp [h1, h2])]
  · intro hstat hN
    unfold refundOrder
    rw [hfind]
    dsimp only
    rw [if_neg (by rcases hstat with h | h <;> simp [h])]
    simp only [Prod.mk.injEq]
    refine ⟨trivial, ?_⟩
    congr 1
    rw [refundFold_eq_map hN]
    apply List.map_congr_left
    intro p _
    congr 1
    rw [itemsQty_null_filter]
    rfl

/-- A pending order (Scenario D target). -/
def w5Pending : Order :=
  { id := 1, user_id := 7, order_number := "ORD-2024-000001", status := .pending
    subtotal := 100, tax_amount := 10, discount_amount := 0, total_amount := 110
    coupon_id := none, payment_method := none, payment_reference := none }

/-- A paid order holding one licensed item. -/
def w5Paid : Order :=
  { id := 2, user_id := 7, order_number := "ORD-2024-000002", status := .paid
    subtotal := 199.98, tax_amount := 19.998, discount_amount := 0
    total_amount := 219.978, coupon_id := none
    payment_method := some "card", payment_reference := some "ref" }

/-- The paid order's item: two units of product 1, licensed. -/
def w5Item : OrderItem :=
  { id := 61, order_id := 2, product_id := 1, quantity := 2, unit_price := 99.99
    total_price := 199.98, license_key := some "LIC-A", download_expires_at := some 5 }

/-- Store for the refund witnesses. -/
def w5DB : DB :=
  { users := [7], products := [wProduct], coupons := [], orders := [w5Pending, w5Paid]
    orderItems := [w5Item], nextOrderId := 3, nextItemId := 62 }

theorem C5_witness :
    refundOrder w5DB 1 =
      ({ success := false, error := some "Order cannot be refunded" }, w5DB) ∧
    refundOrder w5DB 2 =
      ({ success := true, error := none },
        { w5DB with
            orders := [w5Pending, { w5Paid with status := .refunded }]
            orderItems := [{ w5Item with license_key := none
                                         download_expires_at := none }]
            products := [{ wProduct with stock_quantity := 12 }] }) := by
  have hfind1 : w5DB.orders.find? (fun x => x.id == 1) = some w5Pending := by
    simp [w5DB, w5Pending, List.find?]
  have hfind2 : w5DB.orders.find? (fun x => x.id == 2) = some w5Paid := by
    simp [w5DB, w5Pending, w5Paid, List.find?]
  have h1 := (C5_refundOrder hfind1).1 (by simp [w5Pending]) (by simp [w5Pending])
  have h2 := (C5_refundOrder hfind2).2 (Or.inl (by simp [w5Paid]))
    (by simp [w5DB, wProduct])
  refine ⟨h1, ?_⟩
  rw [h2]
  simp only [Prod.mk.injEq]
  refine ⟨trivial, ?_⟩
  norm_num [w5DB, w5Pending, w5Paid, w5Item, wProduct, restoredQty, List.filter]

/-- C8 (amended): `applyCoupon` re-validates via `validateCoupon` against
the order's current subtotal; on any failure (order missing, coupon
missing or ineligible) it reports the validation error and mutates
nothing; on success it bumps the coupon's `used_count` by one (from the
validation snapshot) and rewrites the order's `coupon_id`,
`discount_amount` and `total_amount = subtotal - discount`. -/
theorem C8_applyCoupon (db : DB) (code : String) (oid : Nat) (now : Int) :
    ((applyCoupon db code oid now).1.success = false →
      (applyCoupon db code oid now).2 = db) ∧
    (db.orders.find? (fun x => x.id == oid) = none →
      applyCoupon db code oid now =
        ({ success := false, discount := none, error := some "Order not found" }, db)) ∧
    (∀ o, db.orders.find? (fun x => x.id == oid) = some o →
      (validateCoupon db code o.subtotal now).isValid = false →
      applyCoupon db code oid now =
        ({ success := false, discount := none,
           error := (validateCoupon db code o.subtotal now).error }, db)) ∧
    (∀ o c d, db.orders.find? (fun x => x.id == oid) = some o →
      validateCoupon db code o.subtotal now =
        { isValid := true, coupon := some c, discount := some d, error := none } →
      applyCoupon db code oid now =
        ({ success := true, discount := some d, error := none },
          { db with
              coupons := db.coupons.map (fun x =>
                if x.id == c.id then { x with used_count := c.used_count + 1 } else x)
              orders := db.orders.map (fun x =>
                if x.id == oid then
                  { x with
                      coupon_id := some c.id
                      discount_amount := d
                      total_amount := o.subtotal - d }
                else x) })) := by
  refine ⟨?_, ?_, ?_, ?_⟩
  · unfold applyCoupon
    cases hfind : db.orders.find? (fun x => x.id == oid) with
    | none => intro _; rfl
    | some o =>
      dsimp only
      split
      · intro hfail
        simp at hfail
      · intro _
        rfl
  · intro hfind
    unfold applyCoupon
    rw [hfind]
  · intro o hfind hinvalid
    unfold applyCoupon
    rw [hfind]
    dsimp only
    split
    · rename_i hv _ _
      rw [hv] at hinvalid
      simp at hinvalid
    · rfl
  · intro o c d hfind hvalid
    unfold applyCoupon
    rw [hfind]
    dsimp only
    rw [hvalid]

/-- Store with the `usage_limit = 0` coupon and an order of subtotal
100. -/
def c8DB : DB :=
  { users := [7], products := [], coupons := [c4Coupon], orders := [w2Order]
    orderItems := [], nextOrderId := 2, nextItemId := 1 }

/-- C8 as stated is false in its "same eligibility rule as createOrder"
part: the coupon `ZERO` (usage_limit 0, used_count 3) passes
`createOrder`'s eligibility test on a subtotal of 100, yet `applyCoupon`
rejects it with the usage-limit error (mutating nothing). -/
theorem C8_counterexample :
    createOrderCouponEligible c4Coupon 0 100 = true ∧
    (applyCoupon c8DB "ZERO" 1 0).1.success = false ∧
    (applyCoupon c8DB "ZERO" 1 0).1.error = some "Coupon usage limit reached" ∧
    (applyCoupon c8DB "ZERO" 1 0).2 = c8DB := by
  have hrun : applyCoupon c8DB "ZERO" 1 0 =
      ({ success := false, discount := none,
         error := some "Coupon usage limit reached" }, c8DB) := by
    norm_num [applyCoupon, validateCoupon, isExpiredAt, usageExhausted, belowMinimum,
      c8DB, c4Coupon, w2Order, List.find?]
  exact ⟨by norm_num [createOrderCouponEligible, c4Coupon], by rw [hrun],
    by rw [hrun], by rw [hrun]⟩

theorem C8_witness :
    applyCoupon w2DB "TEN" 1 0 =
      ({ success := true, discount := some 10, error := none },
        { w2DB with
            coupons := [{ w2Coupon with used_count := 1 }]
            orders := [{ w2Order with
                           coupon_id := some 21
                           discount_amount := 10
                           total_amount := 90 }] }) ∧
    (applyCoupon w2DB "NOPE" 1 0).1.success = false ∧
    (applyCoupon w2DB "NOPE" 1 0).2 = w2DB := by
  have hfind : w2DB.orders.find? (fun x => x.id == 1) = some w2Order := by
    simp [w2DB, w2Order, List.find?]
  have hvalid : validateCoupon w2DB "TEN" w2Order.subtotal 0 =
      { isValid := true, coupon := some w2Coupon, discount := some 10, error := none } := by
    norm_num [validateCoupon, isExpiredAt, usageExhausted, belowMinimum,
      w2DB, w2Coupon, w2Order, List.find?]
  have hsucc := (C8_applyCoupon w2DB "TEN" 1 0).2.2.2 w2Order w2Coupon 10 hfind hvalid
  have hfail : (applyCoupon w2DB "NOPE" 1 0).1.success = false := by
    norm_num [applyCoupon, validateCoupon, w2DB, w2Coupon, w2Order, List.find?,
      show ("TEN" == "NOPE") = false from by decide]
  have hkeep := (C8_applyCoupon w2DB "NOPE" 1 0).1 hfail
  refine ⟨?_, hfail, hkeep⟩
  rw [hsucc]
  simp only [Prod.mk.injEq]
  refine ⟨trivial, ?_⟩
  norm_num [w2DB, w2Coupon, w2Order]

/-! ### `createOrder` reads only `(product_id, quantity)` of each item -/

theorem firstStockViolation_strip_congr {ps : List Product} :
    ∀ {l1 l2 : List CreateOrderItemInput}, l1.map stripItem = l2.map stripItem →
      firstStockViolation ps l1 = firstStockViolation ps l2 := by
  intro l1
  induction l1 with
  | nil =>
    intro l2 h
    cases l2 with
    | nil => rfl
    | cons b r2 => simp at h
  | cons a r ih =>
    intro l2 h
    cases l2 with
    | nil => simp at h
    | cons b r2 =>
      simp only [List.map_cons, List.cons.injEq] at h
      obtain ⟨hab, hr⟩ := h
      have hpid : a.product_id = b.product_id := congrArg Prod.fst hab
      have hqty : a.quantity = b.quantity := congrArg Prod.snd hab
      unfold firstStockViolation
      rw [hpid, hqty, ih hr]

theorem orderSubtotal_strip_congr {ps : List Product} :
    ∀ {l1 l2 : List CreateOrderItemInput}, l1.map stripItem = l2.map stripItem →
      ∀ a : ℚ,
        l1.foldl
          (fun s item =>
            match findProduct ps item.product_id with
            | none => s
            | some p => s + p.price * (item.quantity : ℚ)) a =
        l2.foldl
          (fun s item =>
            match findProduct ps item.product_id with
            | none => s
            | some p => s + p.price * (item.quantity : ℚ)) a := by
  intro l1
  induction l1 with
  | nil =>
    intro l2 h a
    cases l2 with
    | nil => rfl
    | cons b r2 => simp at h
  | cons x r ih =>
    intro l2 h a
    cases l2 with
    | nil => simp at h
    | cons b r2 =>
      simp only [List.map_cons, List.cons.injEq] at h
      obtain ⟨hab, hr⟩ := h
      have hpid : x.product_id = b.product_id := congrArg Prod.fst hab
      have hqty : x.quantity = b.quantity := congrArg Prod.snd hab
      simp only [List.foldl_cons]
      rw [hpid, hqty]
      exact ih hr _

theorem createOrderItems_strip_congr {oid : Nat} {ps : List Product} :
    ∀ {l1 l2 : List CreateOrderItemInput}, l1.map stripItem = l2.map stripItem →
      ∀ nextId, createOrderItems oid ps nextId l1 = createOrderItems oid ps nextId l2 := by
  intro l1
  induction l1 with
  | nil =>
    intro l2 h nextId
    cases l2 with
    | nil => rfl
    | cons b r2 => simp at h
  | cons x r ih =>
    intro l2 h nextId
    cases l2 with
    | nil => simp at h
    | cons b r2 =>
      simp only [List.map_cons, List.cons.injEq] at h
      obtain ⟨hab, hr⟩ := h
      have hpid : x.product_id = b.product_id := congrArg Prod.fst hab
      have hqty : x.quantity = b.quantity := congrArg Prod.snd hab
      unfold createOrderItems
      rw [hpid, hqty, ih hr]

theorem stockFold_strip_congr {ps0 : List Product} :
    ∀ {l1 l2 : List CreateOrderItemInput}, l1.map stripItem = l2.map stripItem →
      ∀ acc : List Product,
        l1.foldl
          (fun ps item =>
            match findProduct ps0 item.product_id with
            | some p => setStock ps item.product_id (p.stock_quantity - item.quantity)
            | none => ps) acc =
        l2.foldl
          (fun ps item =>
            match findProduct ps0 item.product_id with
            | some p => setStock ps item.product_id (p.stock_quantity - item.quantity)
            | none => ps) acc := by
  intro l1
  induction l1 with
  | nil =>
    intro l2 h acc
    cases l2 with
    | nil => rfl
    | cons b r2 => simp at h
  | cons x r ih =>
    intro l2 h acc
    cases l2 with
    | nil => simp at h
    | cons b r2 =>
      simp only [List.map_cons, List.cons.injEq] at h
      obtain ⟨hab, hr⟩ := h
      have hpid : x.product_id = b.product_id := congrArg Prod.fst hab
      have hqty : x.quantity = b.quantity := congrArg Prod.snd hab
      simp only [List.foldl_cons]
      rw [hpid, hqty]
      exact ih hr _

/-- C10: the client-supplied `price` of each input item is dead data —
two `createOrder` requests that agree on user, coupon code, and each
item's `(product_id, quantity)` (differing arbitrarily in the items'
`price` fields) produce identical results: same persisted order (all
monetary fields included) and same resulting store. -/
theorem C10_client_price_ignored {db : DB} {now : Int} {year : Nat}
    {in1 in2 : CreateOrderInput}
    (hu : in1.user_id = in2.user_id)
    (hc : in1.coupon_code = in2.coupon_code)
    (hs : in1.items.map stripItem = in2.items.map stripItem) :
    createOrder db now year in1 = createOrder db now year in2 := by
  obtain ⟨u1, items1, cc1⟩ := in1
  obtain ⟨u2, items2, cc2⟩ := in2
  dsimp only at hu hc hs
  subst hu
  subst hc
  have hids : items1.map (·.product_id) = items2.map (·.product_id) := by
    have h1 : items1.map (·.product_id) = (items1.map stripItem).map Prod.fst := by
      rw [List.map_map]; rfl
    have h2 : items2.map (·.product_id) = (items2.map stripItem).map Prod.fst := by
      rw [List.map_map]; rfl
    rw [h1, h2, hs]
  have hlen : items1.length = items2.length := by
    have := congrArg List.length hs
    simpa using this
  have hres : resolvedProducts db ⟨u1, items1, cc1⟩ = resolvedProducts db ⟨u1, items2, cc1⟩ := by
    unfold resolvedProducts
    dsimp only
    rw [hids]
  unfold createOrder
  dsimp only
  rw [hres, hids, hlen,
    firstStockViolation_strip_congr hs,
    show orderSubtotal (resolvedProducts db ⟨u1, items2, cc1⟩) items1 =
      orderSubtotal (resolvedProducts db ⟨u1, items2, cc1⟩) items2 from
      orderSubtotal_strip_congr hs 0,
    createOrderItems_strip_congr hs,
    stockFold_strip_congr hs]

theorem C10_witness :
    ((1 : ℚ) ≠ 99.99) ∧
    createOrder wDB 0 2024 wInput =
      createOrder wDB 0 2024
        { user_id := 7
          items := [{ product_id := 1, quantity := 2, price := 1 }]
          coupon_code := none } :=
  ⟨by norm_num, C10_client_price_ignored rfl rfl (by decide)⟩

/-! ### Round-trip machinery: `createOrder` stock decrement vs `refundOrder` restore -/

/-- Every row built by `createOrderItems` carries the new order's id. -/
theorem createOrderItems_order_id {oid : Nat} {F : List Product} :
    ∀ {nextId : Nat} {items : List CreateOrderItemInput},
      ∀ row ∈ createOrderItems oid F nextId items, row.order_id = oid := by
  intro nextId items
  induction items generalizing nextId with
  | nil => intro row hrow; simp [createOrderItems] at hrow
  | cons i rest ih =>
    intro row hrow
    unfold createOrderItems at hrow
    rcases List.mem_cons.mp hrow with hhead | htail
    · cases hfind : findProduct F i.product_id <;> rw [hfind] at hhead <;> simp [hhead]
    · exact ih row htail

/-- `createOrderItems` persists exactly the input `(product_id, quantity)`
pairs, in order. -/
theorem createOrderItems_strip {oid : Nat} {F : List Product} :
    ∀ {nextId : Nat} {items : List CreateOrderItemInput},
      (createOrderItems oid F nextId items).map stripOrderItem = items.map stripItem := by
  intro nextId items
  induction items generalizing nextId with
  | nil => simp [createOrderItems]
  | cons i rest ih =>
    unfold createOrderItems
    cases hfind : findProduct F i.product_id <;>
      simp only [List.map_cons, ih] <;>
      rfl

/-- `pairSum` vanishes for ids not mentioned. -/
theorem pairSum_eq_zero {pairs : List (Nat × Int)} {pid : Nat}
    (h : ∀ pr ∈ pairs, pr.1 ≠ pid) : pairSum pairs pid = 0 := by
  unfold pairSum
  rw [List.filter_eq_nil_iff.mpr (by intro pr hpr; simpa using h pr hpr)]
  rfl

/-- With pairwise-distinct first components, `pairSum` at a mentioned id
is that pair's quantity. -/
theorem pairSum_single {pairs : List (Nat × Int)} {pid : Nat} {q : Int}
    (hnd : (pairs.map Prod.fst).Nodup) (hmem : (pid, q) ∈ pairs) :
    pairSum pairs pid = q := by
  induction pairs with
  | nil => simp at hmem
  | cons pr rest ih =>
    simp only [List.map_cons, List.nodup_cons] at hnd
    rcases List.mem_cons.mp hmem with rfl | htail
    · unfold pairSum
      rw [List.filter_cons, if_pos (by simp)]
      have hrest : (rest.filter (fun x => x.1 == pid)) = [] := by
        rw [List.filter_eq_nil_iff]
        intro x hx
        simp only [beq_iff_eq]
        intro hcon
        exact hnd.1 (by rw [← hcon]; exact List.mem_map.mpr ⟨x, hx, rfl⟩)
      simp [hrest]
    · have hne : pr.1 ≠ pid := by
        intro hcon
        exact hnd.1 (by rw [hcon]; exact List.mem_map.mpr ⟨(pid, q), htail, rfl⟩)
      unfold pairSum
      rw [List.filter_cons, if_neg (by simpa using hne)]
      exact ih hnd.2 htail

/-- The order-filtered quantity accounting factors through
`stripOrderItem`. -/
theorem restoredQty_eq_pairSum (l : List OrderItem) (oid pid : Nat) :
    ((l.filter (fun it => it.order_id == oid && it.product_id == pid)).map
      (·.quantity)).sum =
    pairSum ((l.filter (fun it => it.order_id == oid)).map stripOrderItem) pid := by
  induction l with
  | nil => simp [pairSum]
  | cons x rest ih =>
    by_cases hord : (x.order_id == oid) = true
    · by_cases hpid : (x.product_id == pid) = true
      · rw [List.filter_cons, if_pos (by simp [hord, hpid]), List.filter_cons,
          if_pos hord]
        unfold pairSum at *
        rw [List.map_cons, List.map_cons, List.filter_cons,
          if_pos (by simpa [stripOrderItem] using hpid)]
        simp [ih, stripOrderItem]
      · rw [List.filter_cons, if_neg (by simp [hord, hpid]), List.filter_cons,
          if_pos hord]
        unfold pairSum at *
        rw [List.map_cons, List.filter_cons,
          if_neg (by simpa [stripOrderItem] using hpid)]
        exact ih
    · rw [List.filter_cons, if_neg (by simp [hord]), List.filter_cons, if_neg hord]
      exact ih

/-- Store shape after a successful refund: each product's stock grows by
the order's refunded quantity for it. -/
theorem refundOrder_success_products {db : DB} {oid : Nat} {r : RefundResult} {db' : DB}
    (h : refundOrder db oid = (r, db')) (hs : r.success = true)
    (hN : (db.products.map (·.id)).Nodup) :
    db'.products = db.products.map (fun p =>
      { p with stock_quantity := p.stock_quantity + restoredQty db oid p.id }) := by
  unfold refundOrder at h
  cases hfind : db.orders.find? (fun x => x.id == oid) with
  | none =>
    rw [hfind] at h
    simp only [Prod.mk.injEq] at h
    rw [← h.1] at hs
    simp at hs
  | some o =>
    rw [hfind] at h
    dsimp only at h
    split at h
    · simp only [Prod.mk.injEq] at h
      rw [← h.1] at hs
      simp at hs
    · simp only [Prod.mk.injEq] at h
      obtain ⟨h1, h2⟩ := h
      subst h2
      dsimp only
      rw [refundFold_eq_map hN]
      apply List.map_congr_left
      intro p _
      congr 1
      rw [itemsQty_null_filter]
      rfl

/-- The `createOrder` stock-decrement fold, pointwise: each product whose
id occurs among the (pairwise-distinct) requested ids is written the
pre-read stock minus the requested quantity; all others are untouched. -/
theorem createFold_eq_map {F : List Product} :
    ∀ {items : List CreateOrderItemInput},
      (items.map (·.product_id)).Nodup →
      ∀ ps : List Product,
        items.foldl
          (fun ps item =>
            match findProduct F item.product_id with
            | some p => setStock ps item.product_id (p.stock_quantity - item.quantity)
            | none => ps) ps =
        ps.map (fun p =>
          match items.find? (fun it => it.product_id == p.id) with
          | some it =>
            (match findProduct F it.product_id with
              | some q => { p with stock_quantity := q.stock_quantity - it.quantity }
              | none => p)
          | none => p) := by
  intro items
  induction items with
  | nil =>
    intro _ ps
    rw [List.foldl_nil]
    have : ∀ p ∈ ps, (fun p =>
        match List.find? (fun it => it.product_id == p.id)
            ([] : List CreateOrderItemInput) with
          | some it =>
            (match findProduct F it.product_id with
              | some q => { p with stock_quantity := q.stock_quantity - it.quantity }
              | none => p)
          | none => p) p = id p := by
      intro p _
      simp [List.find?]
    rw [List.map_congr_left this, List.map_id]
  | cons i rest ih =>
    intro hnd ps
    simp only [List.map_cons, List.nodup_cons] at hnd
    rw [List.foldl_cons]
    have hnotrest : ∀ p : Product, p.id = i.product_id →
        rest.find? (fun it => it.product_id == p.id) = none := by
      intro p hpid
      rw [List.find?_eq_none]
      intro it hit
      simp only [beq_iff_eq]
      intro hcon
      apply hnd.1
      rw [← hpid, ← hcon]
      exact List.mem_map.mpr ⟨it, hit, rfl⟩
    cases hfindF : findProduct F i.product_id with
    | some q =>
      dsimp only
      rw [ih hnd.2]
      unfold setStock
      rw [List.map_map]
      apply List.map_congr_left
      intro p _
      simp only [Function.comp]
      by_cases hid : p.id = i.product_id
      · simp [List.find?_cons, hnotrest p hid, hfindF,
          show (p.id == i.product_id) = true from by simpa using hid,
          show (i.product_id == p.id) = true from by simpa using hid.symm]
      · simp [List.find?_cons,
          show (p.id == i.product_id) = false from by simpa using hid,
          show (i.product_id == p.id) = false from by
            simpa using fun hcon => hid (by rw [hcon])]
    | none =>
      dsimp only
      rw [ih hnd.2]
      apply List.map_congr_left
      intro p _
      by_cases hid : p.id = i.product_id
      · simp [List.find?_cons, hnotrest p hid, hfindF,
          show (i.product_id == p.id) = true from by simpa using hid.symm]
      · simp [List.find?_cons,
          show (i.product_id == p.id) = false from by
            simpa using fun hcon => hid (by rw [hcon])]

/-- C6: a successful `createOrder` followed by a successful `refundOrder`
of that order — across any intermediate processing that does not touch
product rows and preserves the order's items' `(product_id, quantity)`
(payment and license issuance qualify) — restores every product's
`stock_quantity`, indeed every product row, to its pre-order value. -/
theorem C6_roundtrip_stock {db0 db1 db2 db3 : DB} {now : Int} {year : Nat}
    {input : CreateOrderInput} {o : Order} {r : RefundResult}
    (hN : (db0.products.map (·.id)).Nodup)
    (hfresh : ∀ it ∈ db0.orderItems, it.order_id ≠ db0.nextOrderId)
    (hcreate : createOrder db0 now year input = (.ok o, db1))
    (hprodeq : db2.products = db1.products)
    (hitemseq : (db2.orderItems.filter (fun it => it.order_id == o.id)).map stripOrderItem =
      (db1.orderItems.filter (fun it => it.order_id == o.id)).map stripOrderItem)
    (hrefund : refundOrder db2 o.id = (r, db3))
    (hsucc : r.success = true) :
    db3.products = db0.products := by
  obtain ⟨hu, hlen, hviol, hid, huid, hst, hsub, hcid, hdisc, htax, htot, husers,
    hprod, hcoup, hords, hitems1, hnoid, hniid⟩ := createOrder_ok_inv hcreate
  obtain ⟨hndids, hres⟩ := resolve_of_length_eq hN hlen
  have hcadj : db1.products = db0.products.map (fun p =>
      match input.items.find? (fun it => it.product_id == p.id) with
      | some it =>
        (match findProduct (resolvedProducts db0 input) it.product_id with
          | some q => { p with stock_quantity := q.stock_quantity - it.quantity }
          | none => p)
      | none => p) := by
    rw [hprod]
    exact createFold_eq_map hndids db0.products
  have hadjid : ∀ p : Product, ((fun p : Product =>
      match input.items.find? (fun it : CreateOrderItemInput => it.product_id == p.id) with
      | some it =>
        (match findProduct (resolvedProducts db0 input) it.product_id with
          | some q => { p with stock_quantity := q.stock_quantity - it.quantity }
          | none => p)
      | none => p) p).id = p.id := by
    intro p
    dsimp only
    split
    · split <;> rfl
    · rfl
  have hids2 : db2.products.map (·.id) = db0.products.map (·.id) := by
    rw [hprodeq, hcadj, List.map_map]
    apply List.map_congr_left
    intro p _
    exact hadjid p
  have hN2 : (db2.products.map (·.id)).Nodup := by
    rw [hids2]
    exact hN
  have hrest := refundOrder_success_products hrefund hsucc hN2
  have hfilter1 : db1.orderItems.filter (fun it => it.order_id == o.id) =
      createOrderItems db0.nextOrderId (resolvedProducts db0 input) db0.nextItemId
        input.items := by
    rw [hitems1, List.filter_append]
    rw [List.filter_eq_nil_iff.mpr ?_, List.filter_eq_self.mpr ?_]
    · simp
    · intro row hrow
      have := createOrderItems_order_id row hrow
      simp [this, hid]
    · intro it hit
      simp only [beq_iff_eq]
      rw [hid]
      exact hfresh it hit
  have hpairs : (db2.orderItems.filter (fun it => it.order_id == o.id)).map
      stripOrderItem = input.items.map stripItem := by
    rw [hitemseq, hfilter1]
    exact createOrderItems_strip
  have hfst : (input.items.map stripItem).map Prod.fst =
      input.items.map (·.product_id) := by
    rw [List.map_map]
    rfl
  have hqty : ∀ pid, restoredQty db2 o.id pid = pairSum (input.items.map stripItem) pid := by
    intro pid
    unfold restoredQty
    rw [restoredQty_eq_pairSum, hpairs]
  rw [hrest, hprodeq, hcadj, List.map_map]
  have hpoint : ∀ p ∈ db0.products, ((fun p : Product =>
      { p with
          stock_quantity := p.stock_quantity + restoredQty db2 o.id p.id }) ∘
      (fun p : Product =>
        match input.items.find? (fun it : CreateOrderItemInput => it.product_id == p.id) with
        | some it =>
          (match findProduct (resolvedProducts db0 input) it.product_id with
            | some q => { p with stock_quantity := q.stock_quantity - it.quantity }
            | none => p)
        | none => p)) p = id p := by
    intro p hp
    simp only [Function.comp, id]
    cases hfind : input.items.find? (fun it : CreateOrderItemInput => it.product_id == p.id) with
    | none =>
      have hzero : pairSum (input.items.map stripItem) p.id = 0 := by
        apply pairSum_eq_zero
        intro pr hpr
        obtain ⟨it, hit, rfl⟩ := List.mem_map.mp hpr
        have := List.find?_eq_none.mp hfind it hit
        simpa [stripItem] using this
      dsimp only
      rw [hqty, hzero, Int.add_zero]
    | some it =>
      have hitpid : it.product_id = p.id := by
        simpa using List.find?_some hfind
      have hitmem : it ∈ input.items := List.mem_of_find?_eq_some hfind
      obtain ⟨q, hqF, hqdb, _⟩ := hres it.product_id
        (List.mem_map.mpr ⟨it, hitmem, rfl⟩)
      obtain ⟨hqmem, hqid⟩ := findProduct_eq_some hqdb
      have hqp : q = p := by
        apply List.inj_on_of_nodup_map hN hqmem hp
        simp [hqid, hitpid]
      have hone : pairSum (input.items.map stripItem) p.id = it.quantity := by
        apply pairSum_single
        · rw [hfst]
          exact hndids
        · exact List.mem_map.mpr ⟨it, hitmem, by simp [stripItem, hitpid]⟩
      dsimp only
      rw [hqF]
      dsimp only
      rw [hqty, hone, hqp, Int.sub_add_cancel]
  rw [List.map_congr_left hpoint, List.map_id]

/-- The Scenario A store after payment: the order is `paid`, products and
items as `createOrder` left them. -/
def w6DB2 : DB :=
  { wDB' with orders := [{ wOrder with status := .paid }] }

theorem C6_witness :
    createOrder wDB 0 2024 wInput = (.ok wOrder, wDB') ∧
    (refundOrder w6DB2 100).1.success = true ∧
    (refundOrder w6DB2 100).2.products = wDB.products := by
  have hcreate : createOrder wDB 0 2024 wInput = (.ok wOrder, wDB') := by
    norm_num [createOrder, wDB, wInput, wOrder, wDB', wProduct, resolvedProducts,
      firstStockViolation, findProduct, orderSubtotal, createOrderCoupon,
      createOrderItems, setStock]
  have hrefund : refundOrder w6DB2 100 =
      ({ success := true, error := none },
        { w6DB2 with
            orders := [{ wOrder with status := .refunded }]
            orderItems := wDB'.orderItems
            products := [wProduct] }) := by
    norm_num [refundOrder, w6DB2, wDB', wOrder, wProduct, setStock, List.find?,
      List.filter]
  have hsucc : (refundOrder w6DB2 100).1.success = true := by rw [hrefund]
  refine ⟨hcreate, hsucc, ?_⟩
  rw [hrefund]
  exact C6_roundtrip_stock (by decide) (by simp [wDB]) hcreate
    (show w6DB2.products = wDB'.products from rfl) (by decide) hrefund hsucc
